import Mathlib

/-!
Verification of the texture-resource (Image) and Mesh vertex-map behaviour of
the graphics module: a shallow embedding of
`src/modules/graphics/opengl/Image.cpp` and (where only declarations exist in
the sources) of `src/modules/graphics/Mesh.h`, together with theorems about the
load / unload lifecycle, power-of-two fallback geometry, mipmap creation and
mipmap-sharpness clamping.

Machine floats of the source are modelled as exact rationals; the float-valued
`width`/`height` members always hold exact integer values taken from the source
data's dimensions and are modelled as naturals, cast to rationals at the use
sites where the source performs arithmetic on them.
-/

namespace love

/-- Texture filter modes, from the `FilterMode` enum of the source. -/
inductive FilterMode
  | FILTER_NONE
  | FILTER_NEAREST
  | FILTER_LINEAR
deriving DecidableEq

/-- Texture wrap modes. -/
inductive WrapMode
  | WRAP_CLAMP
  | WRAP_REPEAT
deriving DecidableEq

/-- The filter state of a texture: min/mag filters, mipmap filter mode and an
anisotropy level (a float in the source, modelled as a rational). -/
structure Filter where
  minF : FilterMode
  magF : FilterMode
  mipmap : FilterMode
  anisotropy : ℚ
deriving DecidableEq

/-- Per-axis wrap state. -/
structure Wrap where
  ws : WrapMode
  wt : WrapMode
deriving DecidableEq

/-- Compressed texture families, from `image::CompressedData::TextureType`. -/
inductive TextureType
  | TYPE_DXT1
  | TYPE_DXT3
  | TYPE_DXT5
  | TYPE_BC5s
  | TYPE_BC5u
  | TYPE_BC7
  | TYPE_BC7srgb
deriving DecidableEq

/-- Embeds `image::CompressedData::getConstant`: the printable name of a compressed
texture type.  Every member of the enum has a name, so the lookup succeeds. -/
def getConstant : TextureType → Option String
  | .TYPE_DXT1 => some "DXT1"
  | .TYPE_DXT3 => some "DXT3"
  | .TYPE_DXT5 => some "DXT5"
  | .TYPE_BC5s => some "BC5s"
  | .TYPE_BC5u => some "BC5u"
  | .TYPE_BC7 => some "BC7"
  | .TYPE_BC7srgb => some "BC7srgb"

/-- A compressed-block data source: its texture type and the (width, height)
of each mipmap level it carries (level 0 first).  Pixel bytes are irrelevant
to the verified properties and are not modelled. -/
structure CompressedData where
  ttype : TextureType
  levels : List (ℕ × ℕ)
deriving DecidableEq

/-- Embeds `CompressedData::getNumMipmaps`. -/
def CompressedData.getNumMipmaps (cd : CompressedData) : ℕ :=
  cd.levels.length

/-- Embeds `CompressedData::getWidth` for a mipmap level. -/
def CompressedData.getWidth (cd : CompressedData) (i : ℕ) : ℕ :=
  (cd.levels.getD i (0, 0)).1

/-- Embeds `CompressedData::getHeight` for a mipmap level. -/
def CompressedData.getHeight (cd : CompressedData) (i : ℕ) : ℕ :=
  (cd.levels.getD i (0, 0)).2

/-- One corner vertex: position (x, y) and texture coordinates (s, t), all
floats in the source, modelled as rationals.  The byte-valued vertex colors
are set once to 255 in `preload` and never consulted, so they are omitted. -/
structure vertex where
  x : ℚ
  y : ℚ
  s : ℚ
  t : ℚ
deriving DecidableEq

/-- The `vertices[4]` member of an Image: the four corner vertices in the
order the source indexes them (0 top-left, 1 bottom-left, 2 bottom-right,
3 top-right). -/
structure Corners where
  v0 : vertex
  v1 : vertex
  v2 : vertex
  v3 : vertex
deriving DecidableEq

/-- The runtime capability set consulted by the source through the `GLEE_*`
feature flags, plus the two driver-reported numeric limits and whether a
texture upload leaves an error in `glGetError` (driver/allocation failure). -/
structure Caps where
  version_1_2 : Bool
  version_1_3 : Bool
  version_1_4 : Bool
  version_2_0 : Bool
  version_3_0 : Bool
  version_4_2 : Bool
  arb_texture_non_power_of_two : Bool
  ext_texture_filter_anisotropic : Bool
  sgis_generate_mipmap : Bool
  ext_texture_lod_bias : Bool
  arb_texture_compression : Bool
  ext_texture_compression_s3tc : Bool
  arb_texture_compression_rgtc : Bool
  arb_texture_compression_bptc : Bool
  sgis_texture_lod : Bool
  arb_framebuffer_object : Bool
  maxTextureLodBias : ℚ
  maxAnisotropy : ℚ
  uploadFails : Bool
deriving DecidableEq

/-- Embeds `Image::hasNpot`. -/
def hasNpot (c : Caps) : Bool :=
  c.version_2_0 || c.arb_texture_non_power_of_two

/-- Embeds `Image::hasMipmapSupport`. -/
def hasMipmapSupport (c : Caps) : Bool :=
  c.version_1_4 || c.sgis_generate_mipmap

/-- Embeds `Image::hasMipmapSharpnessSupport`. -/
def hasMipmapSharpnessSupport (c : Caps) : Bool :=
  c.version_1_4 || c.ext_texture_lod_bias

/-- Embeds `Image::hasCompressedTextureSupport()` (the niladic overload). -/
def hasCompressedTextureSupport (c : Caps) : Bool :=
  c.version_1_3 || c.arb_texture_compression

/-- Embeds `Image::hasCompressedTextureSupport(type)`: support for one family. -/
def hasCompressedTextureSupportType (c : Caps) (t : TextureType) : Bool :=
  if hasCompressedTextureSupport c = false then false
  else
    match t with
    | .TYPE_DXT1 | .TYPE_DXT3 | .TYPE_DXT5 => c.ext_texture_compression_s3tc
    | .TYPE_BC5s | .TYPE_BC5u => c.version_3_0 || c.arb_texture_compression_rgtc
    | .TYPE_BC7 | .TYPE_BC7srgb => c.version_4_2 || c.arb_texture_compression_bptc

/-- Embeds `GLEE_VERSION_1_2 || GLEE_SGIS_texture_lod`: whether the driver accepts
`GL_TEXTURE_MAX_LEVEL` (the max-level query of `checkMipmapsCreated`). -/
def hasTexMaxLevelSupport (c : Caps) : Bool :=
  c.version_1_2 || c.sgis_texture_lod

/-- Modelled from the spec: `next_p2` lives in `common/math.h`, which is not
among the sources; the spec describes it as the next power-of-two dimension
`≥` the requested size.  Fuel-driven doubling from 1; `n` doublings always
suffice since `n ≤ 2 ^ n`. -/
def np2go (n : ℕ) : ℕ → ℕ → ℕ
  | 0, acc => acc
  | fuel + 1, acc => if n ≤ acc then acc else np2go n fuel (2 * acc)

/-- Modelled from the spec: the least power of two that is `≥ n`
(for `n = 0` it returns `1`, which never matters: dimensions are positive). -/
def next_p2 (n : ℕ) : ℕ :=
  np2go n n 1

/-- The errors thrown by the embedded functions (`love::Exception` sites of
`Image.cpp`, identified by their messages). -/
inductive LoveError
  | unsupportedFormat (name : String)
  | unsupportedFormatUnknown
  | mipmapFilteringUnsupported
  | mipmapNPOT
  | compressedMipmapLevelsMissing
  | npotCompressed
  | sizeTooLarge
deriving DecidableEq

/-- GL commands with observable content emitted by `checkMipmapsCreated`:
which mipmap levels are uploaded and what max-level the GPU is told. -/
inductive GLOp
  | texMaxLevel (n : ℕ)
  | compressedTexImage2D (level : ℕ) (w h : ℕ)
  | texImage2D (w h : ℕ)
  | generateMipmap
  | genMipmapParam
  | texSubImage2D (w h : ℕ)
deriving DecidableEq

/-- The visible state of a texture resource (`opengl::Image`). -/
structure Image where
  isCompressed : Bool
  cdata : Option CompressedData
  hasData : Bool
  width : ℕ
  height : ℕ
  texture : ℕ
  mipmapSharpness : ℚ
  mipmapsCreated : Bool
  filter : Filter
  wrap : Wrap
  vertices : Corners
deriving DecidableEq

/-- Result of `checkMipmapsCreated`: the updated image, the thrown error (if
any) and the trace of observable GL commands issued. -/
structure MipmapResult where
  img : Image
  err : Option LoveError
  ops : List GLOp
deriving DecidableEq

/-- Result of `loadVolatile`: the process-wide `maxMipmapSharpness` static
after the call, the image state at return (or at the throw point) and the
thrown error, if any. -/
structure LoadResult where
  gmax : ℚ
  img : Image
  err : Option LoveError
deriving DecidableEq

/-- The texture type carried by an optional compressed data source; only ever
consulted under a guard establishing the option is `some`. -/
def cdataType : Option CompressedData → TextureType
  | some cd => cd.ttype
  | none => .TYPE_DXT1

/-- Embeds `Image::preload`: resets the four corner vertices to the full-image quad
with texture coordinates spanning (0,0)-(1,1), and resets the filter to the
module default with the default mipmap filter mode.  (The `memset` to 255 only
initialises the vertex colors, which are not modelled.) -/
def preload (defaultFilter : Filter) (defaultMipmapFilter : FilterMode)
    (img : Image) : Image :=
  { img with
    vertices :=
      { v0 := ⟨0, 0, 0, 0⟩
        v1 := ⟨0, (img.height : ℚ), 0, 1⟩
        v2 := ⟨(img.width : ℚ), (img.height : ℚ), 1, 1⟩
        v3 := ⟨(img.width : ℚ), 0, 1, 0⟩ }
    filter := { defaultFilter with mipmap := defaultMipmapFilter } }

/-- The `Image(love::image::ImageData *)` constructor: a raw pixel source of
the given dimensions, unloaded, with the process-wide default mipmap
sharpness and mipmap filter, followed by `preload`.  The initial wrap state
comes from the (unsourced) base-class default. -/
def Image.mkRaw (defaultFilter : Filter) (defaultMipmapFilter : FilterMode)
    (defaultMipmapSharpness : ℚ) (w h : ℕ) : Image :=
  preload defaultFilter defaultMipmapFilter
    { isCompressed := false
      cdata := none
      hasData := true
      width := w
      height := h
      texture := 0
      mipmapSharpness := defaultMipmapSharpness
      mipmapsCreated := false
      filter := defaultFilter
      wrap := ⟨.WRAP_CLAMP, .WRAP_CLAMP⟩
      vertices := ⟨⟨0,0,0,0⟩, ⟨0,0,0,0⟩, ⟨0,0,0,0⟩, ⟨0,0,0,0⟩⟩ }

/-- The `Image(love::image::CompressedData *)` constructor: a compressed
source, dimensions taken from mipmap level 0. -/
def Image.mkCompressed (defaultFilter : Filter)
    (defaultMipmapFilter : FilterMode) (defaultMipmapSharpness : ℚ)
    (cd : CompressedData) : Image :=
  preload defaultFilter defaultMipmapFilter
    { isCompressed := true
      cdata := some cd
      hasData := false
      width := cd.getWidth 0
      height := cd.getHeight 0
      texture := 0
      mipmapSharpness := defaultMipmapSharpness
      mipmapsCreated := false
      filter := defaultFilter
      wrap := ⟨.WRAP_CLAMP, .WRAP_CLAMP⟩
      vertices := ⟨⟨0,0,0,0⟩, ⟨0,0,0,0⟩, ⟨0,0,0,0⟩, ⟨0,0,0,0⟩⟩ }

/-- Embeds `Image::getRectangleVertices`: clamp the requested origin against the
logical dimensions (first against the upper bound, then against zero) and
fill four vertices whose positions span (0,0)-(w,h) and whose texture
coordinates are the requested sub-rectangle as fractions of `width`/`height`.
The source function returns `void` and has no error path. -/
def getRectangleVertices (img : Image) (x y w h : ℤ) : Corners :=
  let x1 : ℤ := if x + w > (img.width : ℤ) then (img.width : ℤ) - w else x
  let y1 : ℤ := if y + h > (img.height : ℤ) then (img.height : ℤ) - h else y
  let x2 : ℤ := if x1 < 0 then 0 else x1
  let y2 : ℤ := if y1 < 0 then 0 else y1
  let tx : ℚ := (x2 : ℚ) / (img.width : ℚ)
  let ty : ℚ := (y2 : ℚ) / (img.height : ℚ)
  let tw : ℚ := (w : ℚ) / (img.width : ℚ)
  let th : ℚ := (h : ℚ) / (img.height : ℚ)
  { v0 := ⟨0, 0, tx, ty⟩
    v1 := ⟨0, (h : ℚ), tx, ty + th⟩
    v2 := ⟨(w : ℚ), (h : ℚ), tx + tw, ty + th⟩
    v3 := ⟨(w : ℚ), 0, tx + tw, ty⟩ }

/-- Embeds `std::min(std::max(a, lo), hi)`, the clamp pattern used by the source. -/
def clampQ (lo hi a : ℚ) : ℚ :=
  min (max a lo) hi

/-- Embeds `Image::setMipmapSharpness`: with LOD-bias support, store the requested
sharpness clamped into the bias range shrunk by an epsilon on both ends (the
source's `0.01f`, modelled exactly as `1/100`); without support, store zero.
The function has no error path.  `gmax` is the process-wide
`maxMipmapSharpness` static. -/
def setMipmapSharpness (caps : Caps) (gmax : ℚ) (sharpness : ℚ)
    (img : Image) : Image :=
  if hasMipmapSharpnessSupport caps = true then
    { img with mipmapSharpness := clampQ (-gmax + 1 / 100) (gmax - 1 / 100) sharpness }
  else
    { img with mipmapSharpness := 0 }

/-- Embeds `Image::getMipmapSharpness`. -/
def getMipmapSharpness (img : Image) : ℚ :=
  img.mipmapSharpness

/-- Modelled from the spec: `Texture`-side `setTextureFilter` is not among the
sources; the spec says the anisotropy value is clamped to what the driver
grants, and the clamped value is stored back. -/
def clampAnisotropy (caps : Caps) (a : ℚ) : ℚ :=
  if caps.ext_texture_filter_anisotropic = true then
    clampQ 1 caps.maxAnisotropy a
  else 1

/-- The trace of per-level uploads done by the compressed branch of
`checkMipmapsCreated`: levels `1` to `numMipmaps - 1`, each uploaded
individually with its own dimensions. -/
def mipUploadOps (cd : CompressedData) : List GLOp :=
  (List.range (cd.getNumMipmaps - 1)).map fun i =>
    .compressedTexImage2D (i + 1) (cd.getWidth (i + 1)) (cd.getHeight (i + 1))

/-- The compressed-with-support branch of `checkMipmapsCreated` (source lines
165-191): tell the GPU the maximum valid level when the driver supports the
query; otherwise fail hard when the declared chain stops above 1x1; then
upload every level beyond the base. -/
def compressedMipmapPath (caps : Caps) (img : Image) (cd : CompressedData) :
    MipmapResult :=
  let n := cd.getNumMipmaps
  if hasTexMaxLevelSupport caps = true then
    ⟨{ img with mipmapsCreated := true }, none,
      .texMaxLevel (n - 1) :: mipUploadOps cd⟩
  else if 1 < cd.getWidth (n - 1) ∨ 1 < cd.getHeight (n - 1) then
    ⟨img, some .compressedMipmapLevelsMissing, []⟩
  else
    ⟨{ img with mipmapsCreated := true }, none, mipUploadOps cd⟩

/-- The raw-data branches of `checkMipmapsCreated` (source lines 193-225):
full re-upload plus `glGenerateMipmap` on capable systems, the
`GL_GENERATE_MIPMAP` parameter path otherwise; with no data source at all the
function returns without setting `mipmapsCreated`. -/
def rawMipmapPath (caps : Caps) (img : Image) : MipmapResult :=
  if img.hasData = true ∧ hasNpot caps = true ∧
      (caps.version_3_0 = true ∨ caps.arb_framebuffer_object = true) then
    ⟨{ img with mipmapsCreated := true }, none,
      [.texImage2D img.width img.height, .generateMipmap]⟩
  else if img.hasData = true then
    ⟨{ img with mipmapsCreated := true }, none,
      [.genMipmapParam, .texSubImage2D img.width img.height]⟩
  else
    ⟨img, none, []⟩

/-- Embeds `Image::checkMipmapsCreated`: a no-op unless the filter's mipmap mode is
nearest or linear and mipmaps are absent; errors for missing mipmap hardware
(non-compressed sources), for non-power-of-two dimensions (non-compressed
sources) and for incomplete compressed chains on drivers without the
max-level query; otherwise creates the mipmaps and records it. -/
def checkMipmapsCreated (caps : Caps) (img : Image) : MipmapResult :=
  if img.mipmapsCreated = true ∨
      (img.filter.mipmap ≠ .FILTER_NEAREST ∧
        img.filter.mipmap ≠ .FILTER_LINEAR) then
    ⟨img, none, []⟩
  else if ¬(img.isCompressed = true ∧ img.cdata.isSome = true) ∧
      hasMipmapSupport caps = false then
    ⟨img, some .mipmapFilteringUnsupported, []⟩
  else if img.isCompressed = false ∧
      (img.width ≠ next_p2 img.width ∨ img.height ≠ next_p2 img.height) then
    ⟨img, some .mipmapNPOT, []⟩
  else
    match img.cdata with
    | some cd =>
      if img.isCompressed = true ∧
          hasCompressedTextureSupportType caps cd.ttype = true then
        compressedMipmapPath caps img cd
      else
        rawMipmapPath caps img
    | none => rawMipmapPath caps img

/-- Embeds `Image::setFilter`: store the filter with the driver-granted anisotropy,
then run `checkMipmapsCreated` (whose exception propagates to the caller). -/
def setFilter (caps : Caps) (f : Filter) (img : Image) :
    Image × Option LoveError :=
  let img1 :=
    { img with filter := { f with anisotropy := clampAnisotropy caps f.anisotropy } }
  let r := checkMipmapsCreated caps img1
  (r.img, r.err)

/-- Embeds `Image::getFilter`. -/
def getFilter (img : Image) : Filter :=
  img.filter

/-- Embeds `Image::setWrap`: store the wrap state and apply it to the GPU sampler. -/
def setWrap (w : Wrap) (img : Image) : Image :=
  { img with wrap := w }

/-- Embeds `Image::getWrap`. -/
def getWrap (img : Image) : Wrap :=
  img.wrap

/-- The shared opening of both load paths: the fresh handle produced by
`glGenTextures` is stored in `texture`, and `setTextureFilter` re-applies the
filter, storing back the driver-granted anisotropy (`setTextureWrap`
re-applies the wrap without changing modelled state). -/
def loadPrep (caps : Caps) (newtex : ℕ) (img : Image) : Image :=
  { img with
    texture := newtex
    filter := { img.filter with
      anisotropy := clampAnisotropy caps img.filter.anisotropy } }

/-- The POT path's corner rescale (source lines 351-359): the
texture-coordinate extent of the four corner vertices becomes
actual size over padded power-of-two size. -/
def potScale (caps : Caps) (newtex : ℕ) (img : Image) : Image :=
  let img1 := loadPrep caps newtex img
  let s : ℚ := (img.width : ℚ) / (next_p2 img.width : ℚ)
  let t : ℚ := (img.height : ℚ) / (next_p2 img.height : ℚ)
  { img1 with vertices :=
      { img1.vertices with
        v1 := { img1.vertices.v1 with t := t }
        v2 := { img1.vertices.v2 with s := s, t := t }
        v3 := { img1.vertices.v3 with s := s } } }

/-- The `mipmapsCreated = false` reset every load performs before calling
`checkMipmapsCreated`. -/
def resetMipmaps (img : Image) : Image :=
  { img with mipmapsCreated := false }

/-- Embeds `Image::loadVolatilePOT` (the path for systems without NPOT support):
generate a texture handle, re-apply filter and wrap, rescale the corner
texture-coordinate extent to `size / next_p2 size`, reject compressed NPOT
sources, upload into the top-left sub-region of a power-of-two allocation,
check for driver errors, recreate mipmaps and re-apply the stored mipmap
sharpness.  `newtex` is the handle produced by `glGenTextures`. -/
def loadVolatilePOT (caps : Caps) (newtex : ℕ) (gmax : ℚ) (img : Image) :
    Image × Option LoveError :=
  let img2 := potScale caps newtex img
  if img2.isCompressed = true ∧ img2.cdata.isSome = true ∧
      ((img.width : ℚ) / (next_p2 img.width : ℚ) ≠ 1 ∨
       (img.height : ℚ) / (next_p2 img.height : ℚ) ≠ 1) then
    (img2, some .npotCompressed)
  else if caps.uploadFails = true then
    (img2, some .sizeTooLarge)
  else
    let r := checkMipmapsCreated caps (resetMipmaps img2)
    match r.err with
    | some e => (r.img, some e)
    | none => (setMipmapSharpness caps gmax r.img.mipmapSharpness r.img, none)

/-- Embeds `Image::loadVolatileNPOT` (the path for systems with NPOT support):
generate a texture handle, re-apply filter and wrap, upload at the exact
requested size, check for driver errors, recreate mipmaps and re-apply the
stored mipmap sharpness. -/
def loadVolatileNPOT (caps : Caps) (newtex : ℕ) (gmax : ℚ) (img : Image) :
    Image × Option LoveError :=
  let img1 := loadPrep caps newtex img
  if caps.uploadFails = true then
    (img1, some .sizeTooLarge)
  else
    let r := checkMipmapsCreated caps (resetMipmaps img1)
    match r.err with
    | some e => (r.img, some e)
    | none => (setMipmapSharpness caps gmax r.img.mipmapSharpness r.img, none)

/-- Embeds `Image::loadVolatile`: reject compressed sources whose family the runtime
does not support (before any allocation), lazily initialise the process-wide
`maxMipmapSharpness` static, and dispatch on NPOT support. -/
def loadVolatile (caps : Caps) (newtex : ℕ) (gmax : ℚ) (img : Image) :
    LoadResult :=
  if img.isCompressed = true ∧ img.cdata.isSome = true ∧
      hasCompressedTextureSupportType caps (cdataType img.cdata) = false then
    match getConstant (cdataType img.cdata) with
    | some name => ⟨gmax, img, some (.unsupportedFormat name)⟩
    | none => ⟨gmax, img, some .unsupportedFormatUnknown⟩
  else
    let gmax1 :=
      if hasMipmapSharpnessSupport caps = true ∧ gmax = 0 then
        caps.maxTextureLodBias
      else gmax
    let p :=
      if hasNpot caps = true then loadVolatileNPOT caps newtex gmax1 img
      else loadVolatilePOT caps newtex gmax1 img
    ⟨gmax1, p.1, p.2⟩

/-- Embeds `Image::unloadVolatile`: delete the hardware texture, zeroing the handle;
all CPU-side state is retained. -/
def unloadVolatile (img : Image) : Image :=
  if img.texture ≠ 0 then { img with texture := 0 } else img

/-- Embeds `Image::load` delegates to `loadVolatile`. -/
def load (caps : Caps) (newtex : ℕ) (gmax : ℚ) (img : Image) : LoadResult :=
  loadVolatile caps newtex gmax img

/-- Embeds `Image::unload` delegates to `unloadVolatile`. -/
def unload (img : Image) : Image :=
  unloadVolatile img

/-- Modelled from the spec: `Mesh.cpp` is not among the sources (only the
header `Mesh.h` is), so the Mesh vertex-map state is modelled from the spec
and the header's documentation: the mesh holds a vertex count, an optional
stored vertex map (absent = identity order) and the index-buffer-in-use
flag. -/
structure Mesh where
  vertexCount : ℕ
  vertexMap : Option (List ℕ)
  useIndexBuffer : Bool
deriving DecidableEq

/-- Modelled from the spec: the zero-argument `Mesh::setVertexMap` overload
"reverts to identity mapping, disabling the index buffer". -/
def Mesh.setVertexMapNone (m : Mesh) : Mesh :=
  { m with vertexMap := none, useIndexBuffer := false }

/-- Modelled from the spec: `Mesh::getVertexMap` expands the previously set
vertex map to a uniform 32-bit sequence; with no map set, the default vertex
map is the identity sequence `{0, 1, 2, 3, 4, ...}` over the vertex count (as
documented in `Mesh.h`). -/
def Mesh.getVertexMap (m : Mesh) : List ℕ :=
  match m.vertexMap with
  | some l => l
  | none => List.range m.vertexCount

attribute [local semireducible] Rat.mul Rat.inv Rat.add Rat.sub

/-! ### Supporting lemmas -/

theorem np2go_pos (n fuel acc : ℕ) (h : 0 < acc) : 0 < np2go n fuel acc := by
  induction fuel generalizing acc with
  | zero => simpa [np2go] using h
  | succ f ih =>
    simp only [np2go]
    split
    · exact h
    · exact ih _ (by omega)

theorem next_p2_pos (n : ℕ) : 0 < next_p2 n :=
  np2go_pos n n 1 one_pos

theorem np2go_ge (n fuel acc : ℕ) (h : n ≤ acc * 2 ^ fuel) :
    n ≤ np2go n fuel acc := by
  induction fuel generalizing acc with
  | zero => simpa [np2go] using h
  | succ f ih =>
    simp only [np2go]
    split
    · assumption
    · refine ih _ ?_
      have he : acc * 2 ^ (f + 1) = 2 * acc * 2 ^ f := by ring
      omega

theorem le_next_p2 (n : ℕ) : n ≤ next_p2 n := by
  refine np2go_ge n n 1 ?_
  have := Nat.lt_two_pow n
  omega

theorem np2go_two_pow (n fuel : ℕ) (acc : ℕ) (k : ℕ) (h : acc = 2 ^ k) :
    ∃ j, np2go n fuel acc = 2 ^ j := by
  induction fuel generalizing acc k with
  | zero => exact ⟨k, by simpa [np2go] using h⟩
  | succ f ih =>
    simp only [np2go]
    split
    · exact ⟨k, h⟩
    · exact ih _ (k + 1) (by rw [h, pow_succ]; ring)

theorem next_p2_two_pow (n : ℕ) : ∃ j, next_p2 n = 2 ^ j :=
  np2go_two_pow n n 1 0 rfl

theorem np2go_lt_two_mul (n fuel acc : ℕ) (h : acc < 2 * n) :
    np2go n fuel acc < 2 * n := by
  induction fuel generalizing acc with
  | zero => simpa [np2go] using h
  | succ f ih =>
    simp only [np2go]
    split
    · exact h
    · next hle => exact ih _ (by omega)

theorem next_p2_lt_two_mul (n : ℕ) (hn : 1 ≤ n) : next_p2 n < 2 * n :=
  np2go_lt_two_mul n n 1 (by omega)

/-- Here `next_p2` really is the NEXT power of two: no smaller power of two
bounds `n`. -/
theorem next_p2_least (n k : ℕ) (hn : 1 ≤ n) (h : n ≤ 2 ^ k) :
    next_p2 n ≤ 2 ^ k := by
  obtain ⟨j, hj⟩ := next_p2_two_pow n
  by_contra hlt
  have hkj : k < j := by
    by_contra hjk
    exact hlt (hj ▸ Nat.pow_le_pow_right (by omega) (by omega))
  have h2 : 2 ^ (k + 1) ≤ 2 ^ j := Nat.pow_le_pow_right (by omega) (by omega)
  have := next_p2_lt_two_mul n hn
  rw [hj] at this
  rw [pow_succ] at h2
  omega

theorem div_next_p2_ne_one (W : ℕ) (h : W ≠ next_p2 W) :
    (W : ℚ) / (next_p2 W : ℚ) ≠ 1 := by
  have hp : ((next_p2 W : ℕ) : ℚ) ≠ 0 :=
    Nat.cast_ne_zero.mpr (next_p2_pos W).ne'
  intro he
  rw [div_eq_one_iff_eq hp] at he
  exact h (by exact_mod_cast he)

theorem clampQ_idem (lo hi a : ℚ) : clampQ lo hi (clampQ lo hi a) = clampQ lo hi a := by
  unfold clampQ
  rcases le_total a lo with h1 | h1 <;> rcases le_total a hi with h2 | h2 <;>
    rcases le_total lo hi with h3 | h3 <;>
    simp [min_def, max_def] <;> split_ifs <;> linarith

theorem clampAnisotropy_idem (caps : Caps) (a : ℚ) :
    clampAnisotropy caps (clampAnisotropy caps a) = clampAnisotropy caps a := by
  unfold clampAnisotropy
  split_ifs
  · exact clampQ_idem _ _ _
  · rfl

/-- Here `checkMipmapsCreated` changes nothing but the `mipmapsCreated` flag. -/
theorem checkMipmapsCreated_preserves (caps : Caps) (img : Image) :
    (checkMipmapsCreated caps img).img.isCompressed = img.isCompressed ∧
    (checkMipmapsCreated caps img).img.cdata = img.cdata ∧
    (checkMipmapsCreated caps img).img.hasData = img.hasData ∧
    (checkMipmapsCreated caps img).img.width = img.width ∧
    (checkMipmapsCreated caps img).img.height = img.height ∧
    (checkMipmapsCreated caps img).img.texture = img.texture ∧
    (checkMipmapsCreated caps img).img.mipmapSharpness = img.mipmapSharpness ∧
    (checkMipmapsCreated caps img).img.filter = img.filter ∧
    (checkMipmapsCreated caps img).img.wrap = img.wrap ∧
    (checkMipmapsCreated caps img).img.vertices = img.vertices := by
  unfold checkMipmapsCreated compressedMipmapPath rawMipmapPath
  cases hc : img.cdata <;> simp only [hc] <;> split_ifs <;> simp [hc]

/-- Here `setMipmapSharpness` changes nothing but the sharpness value. -/
theorem setMipmapSharpness_img (caps : Caps) (gmax s : ℚ) (img : Image) :
    ∃ q, setMipmapSharpness caps gmax s img = { img with mipmapSharpness := q } := by
  unfold setMipmapSharpness
  split_ifs
  · exact ⟨_, rfl⟩
  · exact ⟨_, rfl⟩

/-- If the filter's mipmap mode is off, or mipmaps are already present,
`checkMipmapsCreated` does nothing at all. -/
theorem checkMipmapsCreated_noop (caps : Caps) (img : Image)
    (h : img.mipmapsCreated = true ∨
      (img.filter.mipmap ≠ .FILTER_NEAREST ∧ img.filter.mipmap ≠ .FILTER_LINEAR)) :
    checkMipmapsCreated caps img = ⟨img, none, []⟩ := by
  unfold checkMipmapsCreated
  rw [if_pos h]

/-! ### Concrete fixtures used by witnesses and counterexamples -/

/-- A default filter: linear min/mag, no mipmap filtering, anisotropy 1. -/
def dfltFilter : Filter :=
  ⟨.FILTER_LINEAR, .FILTER_LINEAR, .FILTER_NONE, 1⟩

/-- A POT-only capability set (no NPOT texture support) that does support
S3TC compression, mipmap generation and LOD bias; uploads succeed. -/
def capsPOT : Caps :=
  { version_1_2 := true
    version_1_3 := true
    version_1_4 := true
    version_2_0 := false
    version_3_0 := false
    version_4_2 := false
    arb_texture_non_power_of_two := false
    ext_texture_filter_anisotropic := false
    sgis_generate_mipmap := false
    ext_texture_lod_bias := false
    arb_texture_compression := true
    ext_texture_compression_s3tc := true
    arb_texture_compression_rgtc := false
    arb_texture_compression_bptc := false
    sgis_texture_lod := false
    arb_framebuffer_object := false
    maxTextureLodBias := 2
    maxAnisotropy := 1
    uploadFails := false }

/-- The same system with NPOT texture support. -/
def capsNPOT : Caps :=
  { capsPOT with version_2_0 := true }

/-- A 100x50 raw-pixel image (the spec's POT-padding scenario). -/
def img100 : Image :=
  Image.mkRaw dfltFilter .FILTER_NONE 0 100 50

/-- A 100x50 single-level DXT1 compressed source (non-power-of-two). -/
def cdNPOT : CompressedData :=
  ⟨.TYPE_DXT1, [(100, 50)]⟩

/-- The image constructed from `cdNPOT`. -/
def imgCNPOT : Image :=
  Image.mkCompressed dfltFilter .FILTER_NONE 0 cdNPOT

/-! ### getRectangleVertices characterization -/

/-- The clamped s-origin of `getRectangleVertices`: first reduced so that
`x + w ≤ width`, then raised to at least 0 — i.e. `max 0 (min x (width - w))`. -/
theorem getRectangleVertices_v0s (img : Image) (x y w h : ℤ) :
    (getRectangleVertices img x y w h).v0.s =
      ((max 0 (min x ((img.width : ℤ) - w)) : ℤ) : ℚ) / (img.width : ℚ) := by
  unfold getRectangleVertices
  dsimp only
  split_ifs <;> · congr 1; norm_cast; omega

/-- The clamped t-origin of `getRectangleVertices`. -/
theorem getRectangleVertices_v0t (img : Image) (x y w h : ℤ) :
    (getRectangleVertices img x y w h).v0.t =
      ((max 0 (min y ((img.height : ℤ) - h)) : ℤ) : ℚ) / (img.height : ℚ) := by
  unfold getRectangleVertices
  dsimp only
  split_ifs <;> · congr 1; norm_cast; omega

/-! ### Claim theorems -/

/-- Claim C4 (confirmed): for every input s, `setMipmapSharpness` has no error
path, and the stored sharpness returned by `getMipmapSharpness` equals s
clamped into the bias range shrunk by the epsilon (1/100, the source's 0.01f)
when LOD bias is supported, and exactly zero when it is not. -/
theorem c4_setMipmapSharpness_clamps (caps : Caps) (gmax s : ℚ) (img : Image) :
    getMipmapSharpness (setMipmapSharpness caps gmax s img) =
      if hasMipmapSharpnessSupport caps = true then
        clampQ (-gmax + 1 / 100) (gmax - 1 / 100) s
      else 0 := by
  unfold getMipmapSharpness setMipmapSharpness
  split_ifs <;> rfl

/-- Claim C9 (confirmed, spec-modelled): the zero-argument `setVertexMap`
overload reverts to the identity mapping and disables the index buffer, and
a subsequent `getVertexMap` returns the identity sequence 0..vertexCount-1. -/
theorem c9_setVertexMapNone_identity (m : Mesh) :
    (m.setVertexMapNone).useIndexBuffer = false ∧
    (m.setVertexMapNone).getVertexMap = List.range m.vertexCount ∧
    (m.setVertexMapNone).getVertexMap.length = m.vertexCount ∧
    ∀ i : ℕ, i < m.vertexCount → (m.setVertexMapNone).getVertexMap.getD i 0 = i := by
  refine ⟨rfl, rfl, by simp [Mesh.getVertexMap, Mesh.setVertexMapNone], ?_⟩
  intro i hi
  simp [Mesh.getVertexMap, Mesh.setVertexMapNone, List.getD_eq_getElem?_getD,
    List.getElem?_range hi]

/-- Claim C10 (confirmed): `getRectangleVertices` has no error path; the
requested origin is clamped (x first reduced so that x + w ≤ width, then
raised to at least 0, and y likewise), the four position vertices always span
exactly (0,0)-(w,h), and for any size 0 ≤ w ≤ width, 0 ≤ h ≤ height the
resulting texture-coordinate sub-rectangle lies within the image. -/
theorem c10_getRectangleVertices_clamps (img : Image) (x y w h : ℤ)
    (hW : 0 < img.width) (hH : 0 < img.height) :
    (getRectangleVertices img x y w h).v0.x = 0 ∧
    (getRectangleVertices img x y w h).v0.y = 0 ∧
    (getRectangleVertices img x y w h).v1.x = 0 ∧
    (getRectangleVertices img x y w h).v1.y = (h : ℚ) ∧
    (getRectangleVertices img x y w h).v2.x = (w : ℚ) ∧
    (getRectangleVertices img x y w h).v2.y = (h : ℚ) ∧
    (getRectangleVertices img x y w h).v3.x = (w : ℚ) ∧
    (getRectangleVertices img x y w h).v3.y = 0 ∧
    (getRectangleVertices img x y w h).v0.s =
      ((max 0 (min x ((img.width : ℤ) - w)) : ℤ) : ℚ) / (img.width : ℚ) ∧
    (getRectangleVertices img x y w h).v0.t =
      ((max 0 (min y ((img.height : ℤ) - h)) : ℤ) : ℚ) / (img.height : ℚ) ∧
    (getRectangleVertices img x y w h).v1.s = (getRectangleVertices img x y w h).v0.s ∧
    (getRectangleVertices img x y w h).v3.t = (getRectangleVertices img x y w h).v0.t ∧
    (getRectangleVertices img x y w h).v2.s = (getRectangleVertices img x y w h).v3.s ∧
    (getRectangleVertices img x y w h).v2.t = (getRectangleVertices img x y w h).v1.t ∧
    (getRectangleVertices img x y w h).v3.s =
      (getRectangleVertices img x y w h).v0.s + (w : ℚ) / (img.width : ℚ) ∧
    (getRectangleVertices img x y w h).v1.t =
      (getRectangleVertices img x y w h).v0.t + (h : ℚ) / (img.height : ℚ) ∧
    (0 ≤ w → w ≤ (img.width : ℤ) → 0 ≤ h → h ≤ (img.height : ℤ) →
      0 ≤ (getRectangleVertices img x y w h).v0.s ∧
      (getRectangleVertices img x y w h).v0.s ≤ (getRectangleVertices img x y w h).v2.s ∧
      (getRectangleVertices img x y w h).v2.s ≤ 1 ∧
      0 ≤ (getRectangleVertices img x y w h).v0.t ∧
      (getRectangleVertices img x y w h).v0.t ≤ (getRectangleVertices img x y w h).v2.t ∧
      (getRectangleVertices img x y w h).v2.t ≤ 1) := by
  have hs := getRectangleVertices_v0s img x y w h
  have ht := getRectangleVertices_v0t img x y w h
  have hWq : (0 : ℚ) < (img.width : ℚ) := by exact_mod_cast hW
  have hHq : (0 : ℚ) < (img.height : ℚ) := by exact_mod_cast hH
  refine ⟨rfl, rfl, rfl, rfl, rfl, rfl, rfl, rfl, hs, ht, rfl, rfl, rfl, rfl, rfl, rfl, ?_⟩
  intro h1 h2 h3 h4
  have hA0 : (0 : ℤ) ≤ max 0 (min x ((img.width : ℤ) - w)) := le_max_left _ _
  have hAW : max 0 (min x ((img.width : ℤ) - w)) + w ≤ (img.width : ℤ) := by omega
  have hB0 : (0 : ℤ) ≤ max 0 (min y ((img.height : ℤ) - h)) := le_max_left _ _
  have hBH : max 0 (min y ((img.height : ℤ) - h)) + h ≤ (img.height : ℤ) := by omega
  have hwq : (0 : ℚ) ≤ (w : ℚ) / (img.width : ℚ) :=
    div_nonneg (by exact_mod_cast h1) hWq.le
  have hhq : (0 : ℚ) ≤ (h : ℚ) / (img.height : ℚ) :=
    div_nonneg (by exact_mod_cast h3) hHq.le
  have hv2s : (getRectangleVertices img x y w h).v2.s =
      (getRectangleVertices img x y w h).v0.s + (w : ℚ) / (img.width : ℚ) := rfl
  have hv2t : (getRectangleVertices img x y w h).v2.t =
      (getRectangleVertices img x y w h).v0.t + (h : ℚ) / (img.height : ℚ) := rfl
  have hs0 : 0 ≤ (getRectangleVertices img x y w h).v0.s := by
    rw [hs]; exact div_nonneg (by exact_mod_cast hA0) hWq.le
  have ht0 : 0 ≤ (getRectangleVertices img x y w h).v0.t := by
    rw [ht]; exact div_nonneg (by exact_mod_cast hB0) hHq.le
  refine ⟨hs0, by rw [hv2s]; linarith, ?_, ht0, by rw [hv2t]; linarith, ?_⟩
  · rw [hv2s, hs, div_add_div_same, div_le_one hWq]
    exact_mod_cast hAW
  · rw [hv2t, ht, div_add_div_same, div_le_one hHq]
    exact_mod_cast hBH

/-- Witness for C10 at the concrete scenario 100x50 image, rectangle
(10,10,50,30). -/
theorem c10_witness :
    0 < img100.width ∧ 0 < img100.height ∧
    ((getRectangleVertices img100 10 10 50 30).v0.x = 0 ∧
     (getRectangleVertices img100 10 10 50 30).v0.y = 0 ∧
     (getRectangleVertices img100 10 10 50 30).v1.x = 0 ∧
     (getRectangleVertices img100 10 10 50 30).v1.y = ((30 : ℤ) : ℚ) ∧
     (getRectangleVertices img100 10 10 50 30).v2.x = ((50 : ℤ) : ℚ) ∧
     (getRectangleVertices img100 10 10 50 30).v2.y = ((30 : ℤ) : ℚ) ∧
     (getRectangleVertices img100 10 10 50 30).v3.x = ((50 : ℤ) : ℚ) ∧
     (getRectangleVertices img100 10 10 50 30).v3.y = 0 ∧
     (getRectangleVertices img100 10 10 50 30).v0.s =
       ((max 0 (min 10 ((img100.width : ℤ) - 50)) : ℤ) : ℚ) / (img100.width : ℚ) ∧
     (getRectangleVertices img100 10 10 50 30).v0.t =
       ((max 0 (min 10 ((img100.height : ℤ) - 30)) : ℤ) : ℚ) / (img100.height : ℚ) ∧
     (getRectangleVertices img100 10 10 50 30).v1.s =
       (getRectangleVertices img100 10 10 50 30).v0.s ∧
     (getRectangleVertices img100 10 10 50 30).v3.t =
       (getRectangleVertices img100 10 10 50 30).v0.t ∧
     (getRectangleVertices img100 10 10 50 30).v2.s =
       (getRectangleVertices img100 10 10 50 30).v3.s ∧
     (getRectangleVertices img100 10 10 50 30).v2.t =
       (getRectangleVertices img100 10 10 50 30).v1.t ∧
     (getRectangleVertices img100 10 10 50 30).v3.s =
       (getRectangleVertices img100 10 10 50 30).v0.s + ((50 : ℤ) : ℚ) / (img100.width : ℚ) ∧
     (getRectangleVertices img100 10 10 50 30).v1.t =
       (getRectangleVertices img100 10 10 50 30).v0.t + ((30 : ℤ) : ℚ) / (img100.height : ℚ) ∧
     (0 ≤ (50 : ℤ) → (50 : ℤ) ≤ (img100.width : ℤ) →
      0 ≤ (30 : ℤ) → (30 : ℤ) ≤ (img100.height : ℤ) →
       0 ≤ (getRectangleVertices img100 10 10 50 30).v0.s ∧
       (getRectangleVertices img100 10 10 50 30).v0.s ≤
         (getRectangleVertices img100 10 10 50 30).v2.s ∧
       (getRectangleVertices img100 10 10 50 30).v2.s ≤ 1 ∧
       0 ≤ (getRectangleVertices img100 10 10 50 30).v0.t ∧
       (getRectangleVertices img100 10 10 50 30).v0.t ≤
         (getRectangleVertices img100 10 10 50 30).v2.t ∧
       (getRectangleVertices img100 10 10 50 30).v2.t ≤ 1)) :=
  ⟨by decide, by decide,
    c10_getRectangleVertices_clamps img100 10 10 50 30 (by decide) (by decide)⟩

/-- The 100x50 raw image with a linear mipmap filter requested (used to
witness the mipmap-on-NPOT failure). -/
def img100L : Image :=
  { img100 with filter := { img100.filter with mipmap := .FILTER_LINEAR } }

/-- Claim C5 (confirmed): a nearest/linear mipmap mode on a non-compressed
source with non-power-of-two dimensions makes `checkMipmapsCreated` throw an
unsupported error (the NPOT-dimension error, or the no-mipmap-hardware error
when even basic mipmap support is absent), leaving the image — in particular
`mipmapsCreated = false` — unchanged; with the mipmap mode off, or mipmaps
already created, `checkMipmapsCreated` is a no-op. -/
theorem c5_checkMipmapsCreated_npot (caps : Caps) (img : Image)
    (hc : img.isCompressed = false)
    (hmc : img.mipmapsCreated = false)
    (hmode : img.filter.mipmap = .FILTER_NEAREST ∨ img.filter.mipmap = .FILTER_LINEAR)
    (hnpot : img.width ≠ next_p2 img.width ∨ img.height ≠ next_p2 img.height) :
    checkMipmapsCreated caps img =
      ⟨img, some (if hasMipmapSupport caps = true then .mipmapNPOT
                  else .mipmapFilteringUnsupported), []⟩ ∧
    ∀ j : Image,
      j.mipmapsCreated = true ∨
        (j.filter.mipmap ≠ .FILTER_NEAREST ∧ j.filter.mipmap ≠ .FILTER_LINEAR) →
      checkMipmapsCreated caps j = ⟨j, none, []⟩ := by
  refine ⟨?_, fun j hj => checkMipmapsCreated_noop caps j hj⟩
  unfold checkMipmapsCreated
  have hnc1 : ¬(img.mipmapsCreated = true ∨
      (img.filter.mipmap ≠ .FILTER_NEAREST ∧ img.filter.mipmap ≠ .FILTER_LINEAR)) := by
    rcases hmode with h | h <;> simp [hmc, h]
  rw [if_neg hnc1]
  by_cases hsup : hasMipmapSupport caps = true
  · rw [if_neg (by simp [hsup]), if_pos ⟨hc, hnpot⟩, if_pos hsup]
  · rw [if_pos ⟨by simp [hc], by simpa using hsup⟩, if_neg hsup]

/-- Witness for C5: the 100x50 raw image with linear mipmap filtering on the
POT-only fixture system fails with the NPOT-dimension error. -/
theorem c5_witness :
    (img100L.isCompressed = false ∧ img100L.mipmapsCreated = false ∧
      (img100L.filter.mipmap = .FILTER_NEAREST ∨ img100L.filter.mipmap = .FILTER_LINEAR) ∧
      (img100L.width ≠ next_p2 img100L.width ∨ img100L.height ≠ next_p2 img100L.height)) ∧
    checkMipmapsCreated capsPOT img100L = ⟨img100L, some .mipmapNPOT, []⟩ :=
  ⟨⟨by decide, by decide, by decide, by decide⟩,
    (c5_checkMipmapsCreated_npot capsPOT img100L (by decide) (by decide)
      (by decide) (by decide)).1⟩

/-- Each mipmap level past the base appears in the compressed upload trace. -/
theorem mem_mipUploadOps (cd : CompressedData) (i : ℕ) (h1 : 1 ≤ i)
    (h2 : i < cd.getNumMipmaps) :
    GLOp.compressedTexImage2D i (cd.getWidth i) (cd.getHeight i) ∈ mipUploadOps cd := by
  unfold mipUploadOps
  refine List.mem_map.mpr ⟨i - 1, List.mem_range.mpr (by omega), ?_⟩
  have hi : i - 1 + 1 = i := by omega
  rw [hi]

/-- Claim C7 (confirmed): for a compressed source with an explicit mipmap
chain (mipmap filtering requested, mipmaps absent, format supported): when
the driver supports the max-level query the GPU is told the maximum valid
level `numMipmaps - 1` and every level beyond the base is uploaded
individually; without the query, if the last declared level is larger than
1x1 the call fails hard (state unchanged) instead of silently disabling
mipmaps, and otherwise the per-level uploads still happen. -/
theorem c7_compressed_mipmap_levels (caps : Caps) (img : Image) (cd : CompressedData)
    (hcomp : img.isCompressed = true)
    (hcd : img.cdata = some cd)
    (hsup : hasCompressedTextureSupportType caps cd.ttype = true)
    (hmc : img.mipmapsCreated = false)
    (hmode : img.filter.mipmap = .FILTER_NEAREST ∨ img.filter.mipmap = .FILTER_LINEAR) :
    (hasTexMaxLevelSupport caps = true →
      (checkMipmapsCreated caps img).err = none ∧
      (checkMipmapsCreated caps img).img.mipmapsCreated = true ∧
      GLOp.texMaxLevel (cd.getNumMipmaps - 1) ∈ (checkMipmapsCreated caps img).ops ∧
      ∀ i : ℕ, 1 ≤ i → i < cd.getNumMipmaps →
        GLOp.compressedTexImage2D i (cd.getWidth i) (cd.getHeight i) ∈
          (checkMipmapsCreated caps img).ops) ∧
    (hasTexMaxLevelSupport caps = false →
      (1 < cd.getWidth (cd.getNumMipmaps - 1) ∨ 1 < cd.getHeight (cd.getNumMipmaps - 1)) →
      (checkMipmapsCreated caps img).err = some .compressedMipmapLevelsMissing ∧
      (checkMipmapsCreated caps img).img = img ∧
      (checkMipmapsCreated caps img).img.mipmapsCreated = false) ∧
    (hasTexMaxLevelSupport caps = false →
      ¬(1 < cd.getWidth (cd.getNumMipmaps - 1) ∨ 1 < cd.getHeight (cd.getNumMipmaps - 1)) →
      (checkMipmapsCreated caps img).err = none ∧
      ∀ i : ℕ, 1 ≤ i → i < cd.getNumMipmaps →
        GLOp.compressedTexImage2D i (cd.getWidth i) (cd.getHeight i) ∈
          (checkMipmapsCreated caps img).ops) := by
  have hred : checkMipmapsCreated caps img = compressedMipmapPath caps img cd := by
    unfold checkMipmapsCreated
    have hnc1 : ¬(img.mipmapsCreated = true ∨
        (img.filter.mipmap ≠ .FILTER_NEAREST ∧ img.filter.mipmap ≠ .FILTER_LINEAR)) := by
      rcases hmode with h | h <;> simp [hmc, h]
    rw [if_neg hnc1, if_neg (by simp [hcomp, hcd]), if_neg (by simp [hcomp])]
    simp only [hcd]
    rw [if_pos ⟨hcomp, hsup⟩]
  rw [hred]
  unfold compressedMipmapPath
  refine ⟨fun hml => ?_, fun hml hbig => ?_, fun hml hbig => ?_⟩
  · rw [if_pos hml]
    exact ⟨rfl, rfl, List.mem_cons_self _ _,
      fun i h1 h2 => List.mem_cons_of_mem _ (mem_mipUploadOps cd i h1 h2)⟩
  · rw [if_neg (by simp [hml]), if_pos hbig]
    exact ⟨rfl, rfl, hmc⟩
  · rw [if_neg (by simp [hml]), if_neg hbig]
    exact ⟨rfl, fun i h1 h2 => mem_mipUploadOps cd i h1 h2⟩

/-! ### Projection lemmas for the constructors and state-changing steps -/

theorem mkCompressed_filter_mipmap (df : Filter) (dmf : FilterMode) (dms : ℚ)
    (cd : CompressedData) :
    (Image.mkCompressed df dmf dms cd).filter.mipmap = dmf := rfl

theorem mkCompressed_width (df : Filter) (dmf : FilterMode) (dms : ℚ)
    (cd : CompressedData) :
    (Image.mkCompressed df dmf dms cd).width = cd.getWidth 0 := rfl

theorem mkCompressed_height (df : Filter) (dmf : FilterMode) (dms : ℚ)
    (cd : CompressedData) :
    (Image.mkCompressed df dmf dms cd).height = cd.getHeight 0 := rfl

theorem mkRaw_width (df : Filter) (dmf : FilterMode) (dms : ℚ) (w h : ℕ) :
    (Image.mkRaw df dmf dms w h).width = w := rfl

theorem mkRaw_height (df : Filter) (dmf : FilterMode) (dms : ℚ) (w h : ℕ) :
    (Image.mkRaw df dmf dms w h).height = h := rfl

theorem mkRaw_vertices (df : Filter) (dmf : FilterMode) (dms : ℚ) (w h : ℕ) :
    (Image.mkRaw df dmf dms w h).vertices =
      { v0 := ⟨0, 0, 0, 0⟩
        v1 := ⟨0, (h : ℚ), 0, 1⟩
        v2 := ⟨(w : ℚ), (h : ℚ), 1, 1⟩
        v3 := ⟨(w : ℚ), 0, 1, 0⟩ } := rfl

theorem check_img_width (caps : Caps) (img : Image) :
    (checkMipmapsCreated caps img).img.width = img.width :=
  (checkMipmapsCreated_preserves caps img).2.2.2.1

theorem check_img_height (caps : Caps) (img : Image) :
    (checkMipmapsCreated caps img).img.height = img.height :=
  (checkMipmapsCreated_preserves caps img).2.2.2.2.1

theorem check_img_texture (caps : Caps) (img : Image) :
    (checkMipmapsCreated caps img).img.texture = img.texture :=
  (checkMipmapsCreated_preserves caps img).2.2.2.2.2.1

theorem check_img_mipmapSharpness (caps : Caps) (img : Image) :
    (checkMipmapsCreated caps img).img.mipmapSharpness = img.mipmapSharpness :=
  (checkMipmapsCreated_preserves caps img).2.2.2.2.2.2.1

theorem check_img_filter (caps : Caps) (img : Image) :
    (checkMipmapsCreated caps img).img.filter = img.filter :=
  (checkMipmapsCreated_preserves caps img).2.2.2.2.2.2.2.1

theorem check_img_wrap (caps : Caps) (img : Image) :
    (checkMipmapsCreated caps img).img.wrap = img.wrap :=
  (checkMipmapsCreated_preserves caps img).2.2.2.2.2.2.2.2.1

theorem check_img_vertices (caps : Caps) (img : Image) :
    (checkMipmapsCreated caps img).img.vertices = img.vertices :=
  (checkMipmapsCreated_preserves caps img).2.2.2.2.2.2.2.2.2

theorem check_img_isCompressed (caps : Caps) (img : Image) :
    (checkMipmapsCreated caps img).img.isCompressed = img.isCompressed :=
  (checkMipmapsCreated_preserves caps img).1

theorem check_img_cdata (caps : Caps) (img : Image) :
    (checkMipmapsCreated caps img).img.cdata = img.cdata :=
  (checkMipmapsCreated_preserves caps img).2.1

theorem check_img_hasData (caps : Caps) (img : Image) :
    (checkMipmapsCreated caps img).img.hasData = img.hasData :=
  (checkMipmapsCreated_preserves caps img).2.2.1

theorem sms_width (caps : Caps) (g s : ℚ) (img : Image) :
    (setMipmapSharpness caps g s img).width = img.width := by
  unfold setMipmapSharpness; split_ifs <;> rfl

theorem sms_height (caps : Caps) (g s : ℚ) (img : Image) :
    (setMipmapSharpness caps g s img).height = img.height := by
  unfold setMipmapSharpness; split_ifs <;> rfl

theorem sms_texture (caps : Caps) (g s : ℚ) (img : Image) :
    (setMipmapSharpness caps g s img).texture = img.texture := by
  unfold setMipmapSharpness; split_ifs <;> rfl

theorem sms_filter (caps : Caps) (g s : ℚ) (img : Image) :
    (setMipmapSharpness caps g s img).filter = img.filter := by
  unfold setMipmapSharpness; split_ifs <;> rfl

theorem sms_wrap (caps : Caps) (g s : ℚ) (img : Image) :
    (setMipmapSharpness caps g s img).wrap = img.wrap := by
  unfold setMipmapSharpness; split_ifs <;> rfl

theorem sms_vertices (caps : Caps) (g s : ℚ) (img : Image) :
    (setMipmapSharpness caps g s img).vertices = img.vertices := by
  unfold setMipmapSharpness; split_ifs <;> rfl

theorem sms_isCompressed (caps : Caps) (g s : ℚ) (img : Image) :
    (setMipmapSharpness caps g s img).isCompressed = img.isCompressed := by
  unfold setMipmapSharpness; split_ifs <;> rfl

theorem sms_cdata (caps : Caps) (g s : ℚ) (img : Image) :
    (setMipmapSharpness caps g s img).cdata = img.cdata := by
  unfold setMipmapSharpness; split_ifs <;> rfl

theorem sms_hasData (caps : Caps) (g s : ℚ) (img : Image) :
    (setMipmapSharpness caps g s img).hasData = img.hasData := by
  unfold setMipmapSharpness; split_ifs <;> rfl

theorem sms_mipmapsCreated (caps : Caps) (g s : ℚ) (img : Image) :
    (setMipmapSharpness caps g s img).mipmapsCreated = img.mipmapsCreated := by
  unfold setMipmapSharpness; split_ifs <;> rfl

/-- The value stored by `setMipmapSharpness`. -/
theorem sms_value (caps : Caps) (g s : ℚ) (img : Image) :
    (setMipmapSharpness caps g s img).mipmapSharpness =
      if hasMipmapSharpnessSupport caps = true then
        clampQ (-g + 1 / 100) (g - 1 / 100) s
      else 0 := by
  unfold setMipmapSharpness; split_ifs <;> rfl

theorem loadPrep_isCompressed (caps : Caps) (t : ℕ) (img : Image) :
    (loadPrep caps t img).isCompressed = img.isCompressed := rfl

theorem loadPrep_cdata (caps : Caps) (t : ℕ) (img : Image) :
    (loadPrep caps t img).cdata = img.cdata := rfl

theorem loadPrep_hasData (caps : Caps) (t : ℕ) (img : Image) :
    (loadPrep caps t img).hasData = img.hasData := rfl

theorem loadPrep_width (caps : Caps) (t : ℕ) (img : Image) :
    (loadPrep caps t img).width = img.width := rfl

theorem loadPrep_height (caps : Caps) (t : ℕ) (img : Image) :
    (loadPrep caps t img).height = img.height := rfl

theorem loadPrep_texture (caps : Caps) (t : ℕ) (img : Image) :
    (loadPrep caps t img).texture = t := rfl

theorem loadPrep_mipmapSharpness (caps : Caps) (t : ℕ) (img : Image) :
    (loadPrep caps t img).mipmapSharpness = img.mipmapSharpness := rfl

theorem loadPrep_mipmapsCreated (caps : Caps) (t : ℕ) (img : Image) :
    (loadPrep caps t img).mipmapsCreated = img.mipmapsCreated := rfl

theorem loadPrep_filter (caps : Caps) (t : ℕ) (img : Image) :
    (loadPrep caps t img).filter =
      { img.filter with anisotropy := clampAnisotropy caps img.filter.anisotropy } := rfl

theorem loadPrep_filter_mipmap (caps : Caps) (t : ℕ) (img : Image) :
    (loadPrep caps t img).filter.mipmap = img.filter.mipmap := rfl

theorem loadPrep_wrap (caps : Caps) (t : ℕ) (img : Image) :
    (loadPrep caps t img).wrap = img.wrap := rfl

theorem loadPrep_vertices (caps : Caps) (t : ℕ) (img : Image) :
    (loadPrep caps t img).vertices = img.vertices := rfl

theorem potScale_isCompressed (caps : Caps) (t : ℕ) (img : Image) :
    (potScale caps t img).isCompressed = img.isCompressed := rfl

theorem potScale_cdata (caps : Caps) (t : ℕ) (img : Image) :
    (potScale caps t img).cdata = img.cdata := rfl

theorem potScale_hasData (caps : Caps) (t : ℕ) (img : Image) :
    (potScale caps t img).hasData = img.hasData := rfl

theorem potScale_width (caps : Caps) (t : ℕ) (img : Image) :
    (potScale caps t img).width = img.width := rfl

theorem potScale_height (caps : Caps) (t : ℕ) (img : Image) :
    (potScale caps t img).height = img.height := rfl

theorem potScale_texture (caps : Caps) (t : ℕ) (img : Image) :
    (potScale caps t img).texture = t := rfl

theorem potScale_mipmapSharpness (caps : Caps) (t : ℕ) (img : Image) :
    (potScale caps t img).mipmapSharpness = img.mipmapSharpness := rfl

theorem potScale_mipmapsCreated (caps : Caps) (t : ℕ) (img : Image) :
    (potScale caps t img).mipmapsCreated = img.mipmapsCreated := rfl

theorem potScale_filter (caps : Caps) (t : ℕ) (img : Image) :
    (potScale caps t img).filter =
      { img.filter with anisotropy := clampAnisotropy caps img.filter.anisotropy } := rfl

theorem potScale_filter_mipmap (caps : Caps) (t : ℕ) (img : Image) :
    (potScale caps t img).filter.mipmap = img.filter.mipmap := rfl

theorem potScale_wrap (caps : Caps) (t : ℕ) (img : Image) :
    (potScale caps t img).wrap = img.wrap := rfl

theorem potScale_vertices (caps : Caps) (t : ℕ) (img : Image) :
    (potScale caps t img).vertices =
      { v0 := img.vertices.v0
        v1 := { img.vertices.v1 with
          t := (img.height : ℚ) / (next_p2 img.height : ℚ) }
        v2 := { img.vertices.v2 with
          s := (img.width : ℚ) / (next_p2 img.width : ℚ),
          t := (img.height : ℚ) / (next_p2 img.height : ℚ) }
        v3 := { img.vertices.v3 with
          s := (img.width : ℚ) / (next_p2 img.width : ℚ) } } := rfl

theorem resetMipmaps_isCompressed (img : Image) :
    (resetMipmaps img).isCompressed = img.isCompressed := rfl

theorem resetMipmaps_cdata (img : Image) :
    (resetMipmaps img).cdata = img.cdata := rfl

theorem resetMipmaps_hasData (img : Image) :
    (resetMipmaps img).hasData = img.hasData := rfl

theorem resetMipmaps_width (img : Image) :
    (resetMipmaps img).width = img.width := rfl

theorem resetMipmaps_height (img : Image) :
    (resetMipmaps img).height = img.height := rfl

theorem resetMipmaps_texture (img : Image) :
    (resetMipmaps img).texture = img.texture := rfl

theorem resetMipmaps_mipmapSharpness (img : Image) :
    (resetMipmaps img).mipmapSharpness = img.mipmapSharpness := rfl

theorem resetMipmaps_mipmapsCreated (img : Image) :
    (resetMipmaps img).mipmapsCreated = false := rfl

theorem resetMipmaps_filter (img : Image) :
    (resetMipmaps img).filter = img.filter := rfl

theorem resetMipmaps_wrap (img : Image) :
    (resetMipmaps img).wrap = img.wrap := rfl

theorem resetMipmaps_vertices (img : Image) :
    (resetMipmaps img).vertices = img.vertices := rfl

/-- The vertices after the NPOT load path: unchanged (in both the success and
every failure branch). -/
theorem loadVolatileNPOT_img_vertices (caps : Caps) (newtex : ℕ) (gmax : ℚ)
    (img : Image) :
    (loadVolatileNPOT caps newtex gmax img).1.vertices = img.vertices := by
  unfold loadVolatileNPOT
  dsimp only
  split_ifs
  · rfl
  · split
    · exact check_img_vertices caps _
    · rw [sms_vertices]; exact check_img_vertices caps _

/-- The vertices after the POT load path: the texture-coordinate extent is
rescaled to actual size over padded (power-of-two) size, in both the success
and every failure branch. -/
theorem loadVolatilePOT_img_vertices (caps : Caps) (newtex : ℕ) (gmax : ℚ)
    (img : Image) :
    (loadVolatilePOT caps newtex gmax img).1.vertices =
      { v0 := img.vertices.v0
        v1 := { img.vertices.v1 with
          t := (img.height : ℚ) / (next_p2 img.height : ℚ) }
        v2 := { img.vertices.v2 with
          s := (img.width : ℚ) / (next_p2 img.width : ℚ),
          t := (img.height : ℚ) / (next_p2 img.height : ℚ) }
        v3 := { img.vertices.v3 with
          s := (img.width : ℚ) / (next_p2 img.width : ℚ) } } := by
  unfold loadVolatilePOT
  dsimp only
  split_ifs
  · rfl
  · rfl
  · split
    · exact check_img_vertices caps _
    · rw [sms_vertices]; exact check_img_vertices caps _

theorem mkCompressed_isCompressed (df : Filter) (dmf : FilterMode) (dms : ℚ)
    (cd : CompressedData) :
    (Image.mkCompressed df dmf dms cd).isCompressed = true := rfl

theorem mkCompressed_cdata (df : Filter) (dmf : FilterMode) (dms : ℚ)
    (cd : CompressedData) :
    (Image.mkCompressed df dmf dms cd).cdata = some cd := rfl

/-- Every compressed texture type has a printable name. -/
theorem getConstant_total (t : TextureType) : ∃ s, getConstant t = some s := by
  cases t <;> exact ⟨_, rfl⟩

/-- Here `checkMipmapsCreated` is the identity when the filter's mipmap mode is
`FILTER_NONE`. -/
theorem check_noop_of_mipmap_none (caps : Caps) (img : Image)
    (h : img.filter.mipmap = .FILTER_NONE) :
    checkMipmapsCreated caps img = ⟨img, none, []⟩ := by
  refine checkMipmapsCreated_noop caps img (Or.inr ⟨?_, ?_⟩) <;> rw [h] <;> decide

/-- Claim C2 (refuted): `getRectangleVertices` on the POT-loaded 100x50 image
computes texture coordinates as fractions of the LOGICAL 100x50 size, not of
the padded 128x64 texture: the s-origin for x = 10 is 10/100, not 10/128. -/
theorem c2_counterexample :
    (loadVolatile capsPOT 1 0 img100).err = none ∧
    (getRectangleVertices (loadVolatile capsPOT 1 0 img100).img 10 10 50 30).v0.s = 10 / 100 ∧
    (getRectangleVertices (loadVolatile capsPOT 1 0 img100).img 10 10 50 30).v0.s ≠ 10 / 128 ∧
    (getRectangleVertices (loadVolatile capsPOT 1 0 img100).img 10 10 50 30).v0.t = 10 / 50 ∧
    (getRectangleVertices (loadVolatile capsPOT 1 0 img100).img 10 10 50 30).v0.t ≠ 10 / 64 := by
  decide

/-- Claim C2 (amended): the 100x50 image loads successfully on the POT-only
system, and `getRectangleVertices(10,10,50,30)` returns texture coordinates
computed as fractions of the logical 100x50 size (only the stored full-image
corner vertices are rescaled by the 128x64 padding). -/
theorem c2_amended_logical_fractions :
    (loadVolatile capsPOT 1 0 img100).err = none ∧
    (loadVolatile capsPOT 1 0 img100).img.vertices.v2.s = 100 / 128 ∧
    (loadVolatile capsPOT 1 0 img100).img.vertices.v2.t = 50 / 64 ∧
    getRectangleVertices (loadVolatile capsPOT 1 0 img100).img 10 10 50 30 =
      { v0 := ⟨0, 0, 10 / 100, 10 / 50⟩
        v1 := ⟨0, 30, 10 / 100, 40 / 50⟩
        v2 := ⟨50, 30, 60 / 100, 40 / 50⟩
        v3 := ⟨50, 0, 60 / 100, 10 / 50⟩ } := by
  decide

/-- Claim C1 (refuted): when `loadVolatile` fails with the
NPOT-plus-compression unsupported-capability error on a POT-only system, the
visible state is NOT unchanged: the generated texture handle (1, not the
prior 0) is still stored and the corner texture coordinates have already been
rescaled from 1 to 100/128. -/
theorem c1_counterexample :
    (loadVolatile capsPOT 1 0 imgCNPOT).err = some .npotCompressed ∧
    imgCNPOT.texture = 0 ∧
    (loadVolatile capsPOT 1 0 imgCNPOT).img.texture = 1 ∧
    (loadVolatile capsPOT 1 0 imgCNPOT).img.texture ≠ 0 ∧
    imgCNPOT.vertices.v2.s = 1 ∧
    (loadVolatile capsPOT 1 0 imgCNPOT).img.vertices.v2.s = 100 / 128 ∧
    (loadVolatile capsPOT 1 0 imgCNPOT).img.vertices.v2.s ≠ imgCNPOT.vertices.v2.s := by
  decide

/-- Claim C1 (amended): when `loadVolatile` fails with the
unsupported-compressed-format error, the failure happens before any
allocation and the image (including its texture handle and vertices) really
is unchanged; but when it fails with the NPOT-plus-compression error on a
POT-only system, the freshly generated texture handle remains stored and the
corner texture-coordinate extent has already been rescaled to the
actual/padded fractions. -/
theorem c1_amended_failure_states (caps : Caps) (newtex : ℕ) (gmax : ℚ)
    (img : Image)
    (hcomp : img.isCompressed = true) (hsome : img.cdata.isSome = true) :
    (hasCompressedTextureSupportType caps (cdataType img.cdata) = false →
      (loadVolatile caps newtex gmax img).img = img ∧
      (loadVolatile caps newtex gmax img).gmax = gmax ∧
      ∃ name, (loadVolatile caps newtex gmax img).err =
        some (.unsupportedFormat name)) ∧
    (hasCompressedTextureSupportType caps (cdataType img.cdata) = true →
      hasNpot caps = false →
      (img.width ≠ next_p2 img.width ∨ img.height ≠ next_p2 img.height) →
      (loadVolatile caps newtex gmax img).err = some .npotCompressed ∧
      (loadVolatile caps newtex gmax img).img.texture = newtex ∧
      (loadVolatile caps newtex gmax img).img.vertices.v2.s =
        (img.width : ℚ) / (next_p2 img.width : ℚ) ∧
      (loadVolatile caps newtex gmax img).img.vertices.v2.t =
        (img.height : ℚ) / (next_p2 img.height : ℚ)) := by
  constructor
  · intro hnosup
    unfold loadVolatile
    rw [if_pos ⟨hcomp, hsome, hnosup⟩]
    obtain ⟨nm, hnm⟩ := getConstant_total (cdataType img.cdata)
    refine ⟨?_, ?_, nm, ?_⟩ <;> simp [hnm]
  · intro hsup hnpot hnp
    have hs : (img.width : ℚ) / (next_p2 img.width : ℚ) ≠ 1 ∨
        (img.height : ℚ) / (next_p2 img.height : ℚ) ≠ 1 := by
      rcases hnp with hw | hh
      · exact Or.inl (div_next_p2_ne_one _ hw)
      · exact Or.inr (div_next_p2_ne_one _ hh)
    unfold loadVolatile
    rw [if_neg (by simp [hsup])]
    dsimp only
    rw [if_neg (by simp [hnpot])]
    unfold loadVolatilePOT
    dsimp only
    rw [if_pos ⟨hcomp, hsome, hs⟩]
    exact ⟨rfl, rfl, rfl, rfl⟩

/-- Witness for C1 at the 100x50 DXT1 source on the POT-only system. -/
theorem c1_witness :
    (imgCNPOT.isCompressed = true ∧ imgCNPOT.cdata.isSome = true) ∧
    ((hasCompressedTextureSupportType capsPOT (cdataType imgCNPOT.cdata) = false →
      (loadVolatile capsPOT 1 0 imgCNPOT).img = imgCNPOT ∧
      (loadVolatile capsPOT 1 0 imgCNPOT).gmax = 0 ∧
      ∃ name, (loadVolatile capsPOT 1 0 imgCNPOT).err =
        some (.unsupportedFormat name)) ∧
    (hasCompressedTextureSupportType capsPOT (cdataType imgCNPOT.cdata) = true →
      hasNpot capsPOT = false →
      (imgCNPOT.width ≠ next_p2 imgCNPOT.width ∨
        imgCNPOT.height ≠ next_p2 imgCNPOT.height) →
      (loadVolatile capsPOT 1 0 imgCNPOT).err = some .npotCompressed ∧
      (loadVolatile capsPOT 1 0 imgCNPOT).img.texture = 1 ∧
      (loadVolatile capsPOT 1 0 imgCNPOT).img.vertices.v2.s =
        (imgCNPOT.width : ℚ) / (next_p2 imgCNPOT.width : ℚ) ∧
      (loadVolatile capsPOT 1 0 imgCNPOT).img.vertices.v2.t =
        (imgCNPOT.height : ℚ) / (next_p2 imgCNPOT.height : ℚ))) :=
  ⟨⟨by decide, by decide⟩,
    c1_amended_failure_states capsPOT 1 0 imgCNPOT (by decide) (by decide)⟩

/-- Claim C6 (confirmed): a compressed source whose level-0 dimensions are
not powers of two fails to load on a POT-only system with the
NPOT-plus-compression error, while on a system with NPOT support the same
source loads successfully at exact size, its corner vertices untouched. -/
theorem c6_compressed_npot_load (caps : Caps) (newtex : ℕ) (gmax : ℚ)
    (df : Filter) (dms : ℚ) (cd : CompressedData)
    (hsup : hasCompressedTextureSupportType caps cd.ttype = true)
    (hup : caps.uploadFails = false)
    (hnp : cd.getWidth 0 ≠ next_p2 (cd.getWidth 0) ∨
      cd.getHeight 0 ≠ next_p2 (cd.getHeight 0)) :
    (hasNpot caps = false →
      (loadVolatile caps newtex gmax
        (Image.mkCompressed df .FILTER_NONE dms cd)).err = some .npotCompressed) ∧
    (hasNpot caps = true →
      (loadVolatile caps newtex gmax
        (Image.mkCompressed df .FILTER_NONE dms cd)).err = none ∧
      (loadVolatile caps newtex gmax
        (Image.mkCompressed df .FILTER_NONE dms cd)).img.vertices =
        (Image.mkCompressed df .FILTER_NONE dms cd).vertices ∧
      (loadVolatile caps newtex gmax
        (Image.mkCompressed df .FILTER_NONE dms cd)).img.width = cd.getWidth 0 ∧
      (loadVolatile caps newtex gmax
        (Image.mkCompressed df .FILTER_NONE dms cd)).img.height = cd.getHeight 0 ∧
      (loadVolatile caps newtex gmax
        (Image.mkCompressed df .FILTER_NONE dms cd)).img.texture = newtex) := by
  constructor
  · intro hnpot
    have hs : ((Image.mkCompressed df .FILTER_NONE dms cd).width : ℚ) /
          (next_p2 (Image.mkCompressed df .FILTER_NONE dms cd).width : ℚ) ≠ 1 ∨
        ((Image.mkCompressed df .FILTER_NONE dms cd).height : ℚ) /
          (next_p2 (Image.mkCompressed df .FILTER_NONE dms cd).height : ℚ) ≠ 1 := by
      rw [mkCompressed_width, mkCompressed_height]
      rcases hnp with hw | hh
      · exact Or.inl (div_next_p2_ne_one _ hw)
      · exact Or.inr (div_next_p2_ne_one _ hh)
    unfold loadVolatile
    rw [if_neg (by simp [mkCompressed_cdata, cdataType, hsup])]
    dsimp only
    rw [if_neg (by simp [hnpot])]
    unfold loadVolatilePOT
    dsimp only
    rw [if_pos ⟨rfl, rfl, hs⟩]
  · intro hnpot
    unfold loadVolatile
    rw [if_neg (by simp [mkCompressed_cdata, cdataType, hsup])]
    dsimp only
    rw [if_pos hnpot]
    unfold loadVolatileNPOT
    dsimp only
    rw [if_neg (by simp [hup])]
    simp only [check_noop_of_mipmap_none, resetMipmaps_filter, loadPrep_filter_mipmap,
      mkCompressed_filter_mipmap]
    refine ⟨?_, ?_, ?_, ?_, ?_⟩ <;>
      simp [sms_width, sms_height, sms_texture, sms_vertices,
        resetMipmaps_width, resetMipmaps_height, resetMipmaps_texture,
        resetMipmaps_vertices, loadPrep_width, loadPrep_height,
        loadPrep_texture, loadPrep_vertices,
        mkCompressed_width, mkCompressed_height]

/-- Witness for C6 at the 100x50 DXT1 source on the POT-only fixture. -/
theorem c6_witness :
    (hasCompressedTextureSupportType capsPOT cdNPOT.ttype = true ∧
      capsPOT.uploadFails = false ∧
      (cdNPOT.getWidth 0 ≠ next_p2 (cdNPOT.getWidth 0) ∨
        cdNPOT.getHeight 0 ≠ next_p2 (cdNPOT.getHeight 0))) ∧
    ((hasNpot capsPOT = false →
      (loadVolatile capsPOT 1 0
        (Image.mkCompressed dfltFilter .FILTER_NONE 0 cdNPOT)).err =
          some .npotCompressed) ∧
    (hasNpot capsPOT = true →
      (loadVolatile capsPOT 1 0
        (Image.mkCompressed dfltFilter .FILTER_NONE 0 cdNPOT)).err = none ∧
      (loadVolatile capsPOT 1 0
        (Image.mkCompressed dfltFilter .FILTER_NONE 0 cdNPOT)).img.vertices =
        (Image.mkCompressed dfltFilter .FILTER_NONE 0 cdNPOT).vertices ∧
      (loadVolatile capsPOT 1 0
        (Image.mkCompressed dfltFilter .FILTER_NONE 0 cdNPOT)).img.width =
        cdNPOT.getWidth 0 ∧
      (loadVolatile capsPOT 1 0
        (Image.mkCompressed dfltFilter .FILTER_NONE 0 cdNPOT)).img.height =
        cdNPOT.getHeight 0 ∧
      (loadVolatile capsPOT 1 0
        (Image.mkCompressed dfltFilter .FILTER_NONE 0 cdNPOT)).img.texture = 1)) :=
  ⟨⟨by decide, by decide, by decide⟩,
    c6_compressed_npot_load capsPOT 1 0 dfltFilter 0 cdNPOT
      (by decide) (by decide) (by decide)⟩

theorem mkRaw_isCompressed (df : Filter) (dmf : FilterMode) (dms : ℚ) (w h : ℕ) :
    (Image.mkRaw df dmf dms w h).isCompressed = false := rfl

theorem mkRaw_cdata (df : Filter) (dmf : FilterMode) (dms : ℚ) (w h : ℕ) :
    (Image.mkRaw df dmf dms w h).cdata = none := rfl

/-- Claim C3 (confirmed): after a successful load of a non-compressed WxH
source, the four corner vertices' texture coordinates span (0,0) to
(W/P, H/Q) with P, Q the next powers of two at least W, H on a system
without NPOT support, and (0,0) to (1,1) on a system with NPOT support. -/
theorem c3_corner_texcoords (caps : Caps) (newtex : ℕ) (gmax : ℚ)
    (df : Filter) (dmf : FilterMode) (dms : ℚ) (W H : ℕ)
    (hok : (loadVolatile caps newtex gmax (Image.mkRaw df dmf dms W H)).err = none) :
    (hasNpot caps = false →
      (loadVolatile caps newtex gmax (Image.mkRaw df dmf dms W H)).img.vertices =
        { v0 := ⟨0, 0, 0, 0⟩
          v1 := ⟨0, (H : ℚ), 0, (H : ℚ) / (next_p2 H : ℚ)⟩
          v2 := ⟨(W : ℚ), (H : ℚ), (W : ℚ) / (next_p2 W : ℚ),
            (H : ℚ) / (next_p2 H : ℚ)⟩
          v3 := ⟨(W : ℚ), 0, (W : ℚ) / (next_p2 W : ℚ), 0⟩ }) ∧
    (hasNpot caps = true →
      (loadVolatile caps newtex gmax (Image.mkRaw df dmf dms W H)).img.vertices =
        { v0 := ⟨0, 0, 0, 0⟩
          v1 := ⟨0, (H : ℚ), 0, 1⟩
          v2 := ⟨(W : ℚ), (H : ℚ), 1, 1⟩
          v3 := ⟨(W : ℚ), 0, 1, 0⟩ }) := by
  constructor
  · intro hnpot
    unfold loadVolatile
    rw [if_neg (by simp [mkRaw_isCompressed])]
    dsimp only
    rw [if_neg (by simp [hnpot])]
    rw [loadVolatilePOT_img_vertices]
    simp [mkRaw_vertices, mkRaw_width, mkRaw_height]
  · intro hnpot
    unfold loadVolatile
    rw [if_neg (by simp [mkRaw_isCompressed])]
    dsimp only
    rw [if_pos hnpot]
    rw [loadVolatileNPOT_img_vertices]
    rw [mkRaw_vertices]

/-- Witness for C3: the 100x50 raw source on the POT-only fixture system. -/
theorem c3_witness :
    (loadVolatile capsPOT 1 0 (Image.mkRaw dfltFilter .FILTER_NONE 0 100 50)).err = none ∧
    ((hasNpot capsPOT = false →
      (loadVolatile capsPOT 1 0
        (Image.mkRaw dfltFilter .FILTER_NONE 0 100 50)).img.vertices =
        { v0 := ⟨0, 0, 0, 0⟩
          v1 := ⟨0, ((50 : ℕ) : ℚ), 0, ((50 : ℕ) : ℚ) / (next_p2 50 : ℚ)⟩
          v2 := ⟨((100 : ℕ) : ℚ), ((50 : ℕ) : ℚ),
            ((100 : ℕ) : ℚ) / (next_p2 100 : ℚ), ((50 : ℕ) : ℚ) / (next_p2 50 : ℚ)⟩
          v3 := ⟨((100 : ℕ) : ℚ), 0, ((100 : ℕ) : ℚ) / (next_p2 100 : ℚ), 0⟩ }) ∧
    (hasNpot capsPOT = true →
      (loadVolatile capsPOT 1 0
        (Image.mkRaw dfltFilter .FILTER_NONE 0 100 50)).img.vertices =
        { v0 := ⟨0, 0, 0, 0⟩
          v1 := ⟨0, ((50 : ℕ) : ℚ), 0, 1⟩
          v2 := ⟨((100 : ℕ) : ℚ), ((50 : ℕ) : ℚ), 1, 1⟩
          v3 := ⟨((100 : ℕ) : ℚ), 0, 1, 0⟩ })) :=
  ⟨by decide, c3_corner_texcoords capsPOT 1 0 dfltFilter .FILTER_NONE 0 100 50 (by decide)⟩

/-- A DXT1 source with a complete four-level mipmap chain 8x4 .. 1x1. -/
def cdChain : CompressedData :=
  ⟨.TYPE_DXT1, [(8, 4), (4, 2), (2, 1), (1, 1)]⟩

/-- The image constructed from `cdChain`, with linear mipmap filtering. -/
def imgChain : Image :=
  Image.mkCompressed dfltFilter .FILTER_LINEAR 0 cdChain

/-- Witness for C7 at the four-level DXT1 chain on the fixture system (which
supports the max-level query). -/
theorem c7_witness :
    (imgChain.isCompressed = true ∧ imgChain.cdata = some cdChain ∧
      hasCompressedTextureSupportType capsPOT cdChain.ttype = true ∧
      imgChain.mipmapsCreated = false ∧
      (imgChain.filter.mipmap = .FILTER_NEAREST ∨
        imgChain.filter.mipmap = .FILTER_LINEAR)) ∧
    hasTexMaxLevelSupport capsPOT = true ∧
    (checkMipmapsCreated capsPOT imgChain).err = none ∧
    (checkMipmapsCreated capsPOT imgChain).img.mipmapsCreated = true ∧
    GLOp.texMaxLevel (cdChain.getNumMipmaps - 1) ∈
      (checkMipmapsCreated capsPOT imgChain).ops ∧
    GLOp.compressedTexImage2D 1 (cdChain.getWidth 1) (cdChain.getHeight 1) ∈
      (checkMipmapsCreated capsPOT imgChain).ops := by
  have h := (c7_compressed_mipmap_levels capsPOT imgChain cdChain (by decide)
    (by decide) (by decide) (by decide) (by decide)).1 (by decide)
  exact ⟨⟨by decide, by decide, by decide, by decide, by decide⟩, by decide,
    h.1, h.2.1, h.2.2.1, h.2.2.2 1 (by decide) (by decide)⟩

/-! ### Analysis of checkMipmapsCreated for the unload/load round trip -/

/-- The filter requests mipmapped sampling (nearest or linear mipmap mode). -/
def mipmapModeOn (f : Filter) : Prop :=
  f.mipmap = .FILTER_NEAREST ∨ f.mipmap = .FILTER_LINEAR

/-- The conditions under which `checkMipmapsCreated` throws, assuming the
mipmap mode is on and mipmaps are absent.  Depends only on the capability
set and the immutable source fields of the image. -/
def mipCheckFails (caps : Caps) (img : Image) : Prop :=
  (¬(img.isCompressed = true ∧ img.cdata.isSome = true) ∧
    hasMipmapSupport caps = false) ∨
  (img.isCompressed = false ∧
    (img.width ≠ next_p2 img.width ∨ img.height ≠ next_p2 img.height)) ∨
  (∃ cd, img.cdata = some cd ∧ img.isCompressed = true ∧
    hasCompressedTextureSupportType caps cd.ttype = true ∧
    hasTexMaxLevelSupport caps = false ∧
    (1 < cd.getWidth (cd.getNumMipmaps - 1) ∨
     1 < cd.getHeight (cd.getNumMipmaps - 1)))

/-- Here `mipCheckFails` only reads the immutable source fields. -/
theorem mipCheckFails_congr (caps : Caps) (i j : Image)
    (h1 : i.isCompressed = j.isCompressed) (h2 : i.cdata = j.cdata)
    (h3 : i.width = j.width) (h4 : i.height = j.height) :
    mipCheckFails caps i ↔ mipCheckFails caps j := by
  unfold mipCheckFails
  rw [h1, h2, h3, h4]

/-- The raw-data mipmap branches never throw. -/
theorem rawMipmapPath_err (caps : Caps) (img : Image) :
    (rawMipmapPath caps img).err = none := by
  unfold rawMipmapPath
  split_ifs <;> rfl

/-- If none of the failure conditions holds, `checkMipmapsCreated` does not
throw (whatever the mode and the created flag). -/
theorem check_ok_of_not_fails (caps : Caps) (img : Image)
    (h : ¬ mipCheckFails caps img) :
    (checkMipmapsCreated caps img).err = none := by
  unfold checkMipmapsCreated
  split_ifs with h0 h1 h2
  · rfl
  · exact (h (Or.inl h1)).elim
  · exact (h (Or.inr (Or.inl h2))).elim
  · cases hcd : img.cdata with
    | none => simp only [hcd]; exact rawMipmapPath_err _ _
    | some cd =>
      simp only [hcd]
      split_ifs with h3
      · unfold compressedMipmapPath
        dsimp only
        split_ifs with h4 h5
        · rfl
        · exact (h (Or.inr (Or.inr ⟨cd, hcd, h3.1, h3.2,
            by simpa using h4, h5⟩))).elim
        · rfl
      · exact rawMipmapPath_err _ _

/-- If `checkMipmapsCreated` does not throw although the mode is on and
mipmaps were absent, none of the failure conditions held. -/
theorem not_fails_of_check_ok (caps : Caps) (img : Image)
    (h : (checkMipmapsCreated caps img).err = none)
    (hmode : mipmapModeOn img.filter)
    (hmc : img.mipmapsCreated = false) :
    ¬ mipCheckFails caps img := by
  intro hf
  unfold checkMipmapsCreated at h
  rw [if_neg (by rcases hmode with hm | hm <;> simp [hmc, hm])] at h
  rcases hf with h1 | h2 | h3
  · rw [if_pos h1] at h
    simp at h
  · by_cases hg1 : ¬(img.isCompressed = true ∧ img.cdata.isSome = true) ∧
        hasMipmapSupport caps = false
    · rw [if_pos hg1] at h; simp at h
    · rw [if_neg hg1, if_pos h2] at h; simp at h
  · obtain ⟨cd, hcd, hcomp, hsup, hml, hbig⟩ := h3
    by_cases hg1 : ¬(img.isCompressed = true ∧ img.cdata.isSome = true) ∧
        hasMipmapSupport caps = false
    · rw [if_pos hg1] at h; simp at h
    · rw [if_neg hg1] at h
      by_cases hg2 : img.isCompressed = false ∧
          (img.width ≠ next_p2 img.width ∨ img.height ≠ next_p2 img.height)
      · rw [if_pos hg2] at h; simp at h
      · rw [if_neg hg2] at h
        simp only [hcd] at h
        rw [if_pos ⟨hcomp, hsup⟩] at h
        unfold compressedMipmapPath at h
        rw [if_neg (by simp [hml]), if_pos hbig] at h
        simp at h

/-- Here `checkMipmapsCreated` only turns the created flag on when the mode asked
for mipmaps. -/
theorem check_created_flip (caps : Caps) (img : Image)
    (h1 : (checkMipmapsCreated caps img).img.mipmapsCreated = true)
    (h2 : img.mipmapsCreated = false) :
    mipmapModeOn img.filter := by
  by_cases hmode : mipmapModeOn img.filter
  · exact hmode
  · exfalso
    rw [checkMipmapsCreated_noop caps img
      (Or.inr ⟨fun h => hmode (Or.inl h), fun h => hmode (Or.inr h)⟩)] at h1
    rw [h2] at h1
    exact Bool.false_ne_true h1

theorem unload_isCompressed (img : Image) :
    (unloadVolatile img).isCompressed = img.isCompressed := by
  unfold unloadVolatile; split_ifs <;> rfl

theorem unload_cdata (img : Image) :
    (unloadVolatile img).cdata = img.cdata := by
  unfold unloadVolatile; split_ifs <;> rfl

theorem unload_hasData (img : Image) :
    (unloadVolatile img).hasData = img.hasData := by
  unfold unloadVolatile; split_ifs <;> rfl

theorem unload_width (img : Image) :
    (unloadVolatile img).width = img.width := by
  unfold unloadVolatile; split_ifs <;> rfl

theorem unload_height (img : Image) :
    (unloadVolatile img).height = img.height := by
  unfold unloadVolatile; split_ifs <;> rfl

theorem unload_mipmapSharpness (img : Image) :
    (unloadVolatile img).mipmapSharpness = img.mipmapSharpness := by
  unfold unloadVolatile; split_ifs <;> rfl

theorem unload_mipmapsCreated (img : Image) :
    (unloadVolatile img).mipmapsCreated = img.mipmapsCreated := by
  unfold unloadVolatile; split_ifs <;> rfl

theorem unload_filter (img : Image) :
    (unloadVolatile img).filter = img.filter := by
  unfold unloadVolatile; split_ifs <;> rfl

theorem unload_wrap (img : Image) :
    (unloadVolatile img).wrap = img.wrap := by
  unfold unloadVolatile; split_ifs <;> rfl

theorem unload_vertices (img : Image) :
    (unloadVolatile img).vertices = img.vertices := by
  unfold unloadVolatile; split_ifs <;> rfl

/-- After `unloadVolatile` the texture handle is always zero (the Unloaded
state). -/
theorem unload_texture (img : Image) :
    (unloadVolatile img).texture = 0 := by
  unfold unloadVolatile
  split_ifs with h
  · rfl
  · simpa using h

/-- Field effects of the POT load path, uniform over success and failure. -/
theorem loadVolatilePOT_core (caps : Caps) (t : ℕ) (g : ℚ) (img : Image) :
    (loadVolatilePOT caps t g img).1.isCompressed = img.isCompressed ∧
    (loadVolatilePOT caps t g img).1.cdata = img.cdata ∧
    (loadVolatilePOT caps t g img).1.hasData = img.hasData ∧
    (loadVolatilePOT caps t g img).1.width = img.width ∧
    (loadVolatilePOT caps t g img).1.height = img.height ∧
    (loadVolatilePOT caps t g img).1.texture = t ∧
    (loadVolatilePOT caps t g img).1.wrap = img.wrap ∧
    (loadVolatilePOT caps t g img).1.filter =
      { img.filter with anisotropy := clampAnisotropy caps img.filter.anisotropy } := by
  unfold loadVolatilePOT
  dsimp only
  split_ifs
  · exact ⟨rfl, rfl, rfl, rfl, rfl, rfl, rfl, rfl⟩
  · exact ⟨rfl, rfl, rfl, rfl, rfl, rfl, rfl, rfl⟩
  · split
    · exact ⟨check_img_isCompressed _ _, check_img_cdata _ _, check_img_hasData _ _,
        check_img_width _ _, check_img_height _ _, check_img_texture _ _,
        check_img_wrap _ _, check_img_filter _ _⟩
    · exact ⟨(sms_isCompressed _ _ _ _).trans (check_img_isCompressed _ _),
        (sms_cdata _ _ _ _).trans (check_img_cdata _ _),
        (sms_hasData _ _ _ _).trans (check_img_hasData _ _),
        (sms_width _ _ _ _).trans (check_img_width _ _),
        (sms_height _ _ _ _).trans (check_img_height _ _),
        (sms_texture _ _ _ _).trans (check_img_texture _ _),
        (sms_wrap _ _ _ _).trans (check_img_wrap _ _),
        (sms_filter _ _ _ _).trans (check_img_filter _ _)⟩

/-- Field effects of the NPOT load path, uniform over success and failure. -/
theorem loadVolatileNPOT_core (caps : Caps) (t : ℕ) (g : ℚ) (img : Image) :
    (loadVolatileNPOT caps t g img).1.isCompressed = img.isCompressed ∧
    (loadVolatileNPOT caps t g img).1.cdata = img.cdata ∧
    (loadVolatileNPOT caps t g img).1.hasData = img.hasData ∧
    (loadVolatileNPOT caps t g img).1.width = img.width ∧
    (loadVolatileNPOT caps t g img).1.height = img.height ∧
    (loadVolatileNPOT caps t g img).1.texture = t ∧
    (loadVolatileNPOT caps t g img).1.wrap = img.wrap ∧
    (loadVolatileNPOT caps t g img).1.filter =
      { img.filter with anisotropy := clampAnisotropy caps img.filter.anisotropy } := by
  unfold loadVolatileNPOT
  dsimp only
  split_ifs
  · exact ⟨rfl, rfl, rfl, rfl, rfl, rfl, rfl, rfl⟩
  · split
    · exact ⟨check_img_isCompressed _ _, check_img_cdata _ _, check_img_hasData _ _,
        check_img_width _ _, check_img_height _ _, check_img_texture _ _,
        check_img_wrap _ _, check_img_filter _ _⟩
    · exact ⟨(sms_isCompressed _ _ _ _).trans (check_img_isCompressed _ _),
        (sms_cdata _ _ _ _).trans (check_img_cdata _ _),
        (sms_hasData _ _ _ _).trans (check_img_hasData _ _),
        (sms_width _ _ _ _).trans (check_img_width _ _),
        (sms_height _ _ _ _).trans (check_img_height _ _),
        (sms_texture _ _ _ _).trans (check_img_texture _ _),
        (sms_wrap _ _ _ _).trans (check_img_wrap _ _),
        (sms_filter _ _ _ _).trans (check_img_filter _ _)⟩

/-- The NPOT load path succeeds when uploads work and the mipmap check
cannot fail. -/
theorem loadVolatileNPOT_err_none (caps : Caps) (t : ℕ) (g : ℚ) (img : Image)
    (hup : caps.uploadFails = false)
    (hok : mipmapModeOn img.filter → ¬ mipCheckFails caps img) :
    (loadVolatileNPOT caps t g img).2 = none := by
  have herr : (checkMipmapsCreated caps (resetMipmaps (loadPrep caps t img))).err =
      none := by
    by_cases hmode : mipmapModeOn img.filter
    · refine check_ok_of_not_fails caps (resetMipmaps (loadPrep caps t img))
        (fun hf => hok hmode ?_)
      exact (mipCheckFails_congr caps (resetMipmaps (loadPrep caps t img)) img
        rfl rfl rfl rfl).mp hf
    · have hno := checkMipmapsCreated_noop caps (resetMipmaps (loadPrep caps t img))
        (Or.inr ⟨fun hh => hmode (Or.inl hh), fun hh => hmode (Or.inr hh)⟩)
      rw [hno]
  unfold loadVolatileNPOT
  dsimp only
  rw [if_neg (by simp [hup]), herr]

/-- The POT load path succeeds when uploads work, the compressed-NPOT
rejection does not apply, and the mipmap check cannot fail. -/
theorem loadVolatilePOT_err_none (caps : Caps) (t : ℕ) (g : ℚ) (img : Image)
    (hup : caps.uploadFails = false)
    (hpot : ¬((potScale caps t img).isCompressed = true ∧
        (potScale caps t img).cdata.isSome = true ∧
        ((img.width : ℚ) / (next_p2 img.width : ℚ) ≠ 1 ∨
         (img.height : ℚ) / (next_p2 img.height : ℚ) ≠ 1)))
    (hok : mipmapModeOn img.filter → ¬ mipCheckFails caps img) :
    (loadVolatilePOT caps t g img).2 = none := by
  have herr : (checkMipmapsCreated caps (resetMipmaps (potScale caps t img))).err =
      none := by
    by_cases hmode : mipmapModeOn img.filter
    · refine check_ok_of_not_fails caps (resetMipmaps (potScale caps t img))
        (fun hf => hok hmode ?_)
      exact (mipCheckFails_congr caps (resetMipmaps (potScale caps t img)) img
        rfl rfl rfl rfl).mp hf
    · have hno := checkMipmapsCreated_noop caps (resetMipmaps (potScale caps t img))
        (Or.inr ⟨fun hh => hmode (Or.inl hh), fun hh => hmode (Or.inr hh)⟩)
      rw [hno]
  unfold loadVolatilePOT
  dsimp only
  rw [if_neg hpot, if_neg (by simp [hup]), herr]

/-- What a successful POT load tells us: uploads worked, the compressed-NPOT
rejection did not apply, the mipmap check passed, and the created flag and
sharpness of the result. -/
theorem loadVolatilePOT_success_info (caps : Caps) (t : ℕ) (g : ℚ) (img : Image)
    (h : (loadVolatilePOT caps t g img).2 = none) :
    caps.uploadFails = false ∧
    ¬((potScale caps t img).isCompressed = true ∧
      (potScale caps t img).cdata.isSome = true ∧
      ((img.width : ℚ) / (next_p2 img.width : ℚ) ≠ 1 ∨
       (img.height : ℚ) / (next_p2 img.height : ℚ) ≠ 1)) ∧
    (checkMipmapsCreated caps (resetMipmaps (potScale caps t img))).err = none ∧
    (loadVolatilePOT caps t g img).1.mipmapsCreated =
      (checkMipmapsCreated caps (resetMipmaps (potScale caps t img))).img.mipmapsCreated ∧
    (loadVolatilePOT caps t g img).1.mipmapSharpness =
      (if hasMipmapSharpnessSupport caps = true then
        clampQ (-g + 1 / 100) (g - 1 / 100) img.mipmapSharpness else 0) := by
  unfold loadVolatilePOT at h ⊢
  dsimp only at h ⊢
  split_ifs at h with h1 h2
  split at h
  · simp at h
  · next heq =>
    refine ⟨by simpa using h2, h1, heq, ?_, ?_⟩
    · rw [if_neg h1, if_neg h2]
      exact sms_mipmapsCreated _ _ _ _
    · rw [if_neg h1, if_neg h2, sms_value, check_img_mipmapSharpness,
        resetMipmaps_mipmapSharpness, potScale_mipmapSharpness]

/-- What a successful NPOT load tells us. -/
theorem loadVolatileNPOT_success_info (caps : Caps) (t : ℕ) (g : ℚ) (img : Image)
    (h : (loadVolatileNPOT caps t g img).2 = none) :
    caps.uploadFails = false ∧
    (checkMipmapsCreated caps (resetMipmaps (loadPrep caps t img))).err = none ∧
    (loadVolatileNPOT caps t g img).1.mipmapsCreated =
      (checkMipmapsCreated caps (resetMipmaps (loadPrep caps t img))).img.mipmapsCreated ∧
    (loadVolatileNPOT caps t g img).1.mipmapSharpness =
      (if hasMipmapSharpnessSupport caps = true then
        clampQ (-g + 1 / 100) (g - 1 / 100) img.mipmapSharpness else 0) := by
  unfold loadVolatileNPOT at h ⊢
  dsimp only at h ⊢
  split_ifs at h with h1
  split at h
  · simp at h
  · next heq =>
    refine ⟨by simpa using h1, heq, ?_, ?_⟩
    · rw [if_neg h1]
      exact sms_mipmapsCreated _ _ _ _
    · rw [if_neg h1, sms_value, check_img_mipmapSharpness,
        resetMipmaps_mipmapSharpness, loadPrep_mipmapSharpness]

/-- The lazy initialisation of the `maxMipmapSharpness` static is stable:
running it twice gives the same value as running it once. -/
theorem lazyInit_stable (caps : Caps) (g : ℚ) :
    (if hasMipmapSharpnessSupport caps = true ∧
        (if hasMipmapSharpnessSupport caps = true ∧ g = 0 then
          caps.maxTextureLodBias else g) = 0 then
      caps.maxTextureLodBias
     else
      (if hasMipmapSharpnessSupport caps = true ∧ g = 0 then
        caps.maxTextureLodBias else g)) =
    (if hasMipmapSharpnessSupport caps = true ∧ g = 0 then
      caps.maxTextureLodBias else g) := by
  by_cases hs : hasMipmapSharpnessSupport caps = true
  · by_cases hg : g = 0
    · rw [if_pos (show hasMipmapSharpnessSupport caps = true ∧ g = 0 from ⟨hs, hg⟩)]
      by_cases hm : caps.maxTextureLodBias = 0
      · rw [if_pos (show hasMipmapSharpnessSupport caps = true ∧
          caps.maxTextureLodBias = 0 from ⟨hs, hm⟩)]
      · rw [if_neg (show ¬(hasMipmapSharpnessSupport caps = true ∧
          caps.maxTextureLodBias = 0) from fun hc => hm hc.2)]
    · rw [if_neg (show ¬(hasMipmapSharpnessSupport caps = true ∧ g = 0) from
        fun hc => hg hc.2)]
      rw [if_neg (show ¬(hasMipmapSharpnessSupport caps = true ∧ g = 0) from
        fun hc => hg hc.2)]
  · rw [if_neg (show ¬(hasMipmapSharpnessSupport caps = true ∧ g = 0) from
      fun hc => hs hc.1)]
    rw [if_neg (show ¬(hasMipmapSharpnessSupport caps = true ∧ g = 0) from
      fun hc => hs hc.1)]

/-- The invariant of every reachable loaded state: re-loading cannot fail,
and the stored anisotropy and mipmap sharpness are fixed points of their
clamps, so a reload reproduces them. -/
def LoadedInv (caps : Caps) (gmax : ℚ) (img : Image) : Prop :=
  caps.uploadFails = false ∧
  (img.isCompressed = true → img.cdata.isSome = true →
    hasCompressedTextureSupportType caps (cdataType img.cdata) = true) ∧
  (hasNpot caps = false → img.isCompressed = true → img.cdata.isSome = true →
    (img.width : ℚ) / (next_p2 img.width : ℚ) = 1 ∧
    (img.height : ℚ) / (next_p2 img.height : ℚ) = 1) ∧
  (mipmapModeOn img.filter → ¬ mipCheckFails caps img) ∧
  (img.mipmapsCreated = true → ¬ mipCheckFails caps img) ∧
  (if hasMipmapSharpnessSupport caps = true ∧ gmax = 0 then
    caps.maxTextureLodBias else gmax) = gmax ∧
  (hasMipmapSharpnessSupport caps = true →
    clampQ (-gmax + 1 / 100) (gmax - 1 / 100) img.mipmapSharpness =
      img.mipmapSharpness) ∧
  (hasMipmapSharpnessSupport caps = false → img.mipmapSharpness = 0) ∧
  clampAnisotropy caps img.filter.anisotropy = img.filter.anisotropy

/-- A successful `loadVolatile` establishes the loaded-state invariant. -/
theorem inv_of_load (caps : Caps) (t : ℕ) (g₀ : ℚ) (img₀ : Image)
    (h : (loadVolatile caps t g₀ img₀).err = none) :
    LoadedInv caps (loadVolatile caps t g₀ img₀).gmax
      (loadVolatile caps t g₀ img₀).img := by
  by_cases hfmt : img₀.isCompressed = true ∧ img₀.cdata.isSome = true ∧
      hasCompressedTextureSupportType caps (cdataType img₀.cdata) = false
  · exfalso
    unfold loadVolatile at h
    rw [if_pos hfmt] at h
    obtain ⟨nm, hnm⟩ := getConstant_total (cdataType img₀.cdata)
    simp [hnm] at h
  · unfold loadVolatile at h ⊢
    rw [if_neg hfmt] at h ⊢
    dsimp only at h ⊢
    by_cases hnp : hasNpot caps = true
    · rw [if_pos hnp] at h ⊢
      obtain ⟨hup, hchk, hcre, hsharp⟩ := loadVolatileNPOT_success_info caps t _ img₀ h
      obtain ⟨ci, cc, cd, cw, chh, ct, cwr, cf⟩ := loadVolatileNPOT_core caps t
        (if hasMipmapSharpnessSupport caps = true ∧ g₀ = 0 then
          caps.maxTextureLodBias else g₀) img₀
      refine ⟨hup, ?_, ?_, ?_, ?_, lazyInit_stable caps g₀, ?_, ?_, ?_⟩
      · intro hc hd
        rw [ci] at hc
        rw [cc] at hd ⊢
        cases hsupb : hasCompressedTextureSupportType caps (cdataType img₀.cdata) with
        | false => exact (hfmt ⟨hc, hd, hsupb⟩).elim
        | true => rfl
      · intro hfalse
        exact absurd hfalse (by simp [hnp])
      · intro hmode
        have hmode0 : mipmapModeOn img₀.filter := by
          rcases hmode with hm | hm
          · rw [cf] at hm; exact Or.inl hm
          · rw [cf] at hm; exact Or.inr hm
        have hnf : ¬ mipCheckFails caps (resetMipmaps (loadPrep caps t img₀)) :=
          not_fails_of_check_ok caps (resetMipmaps (loadPrep caps t img₀))
            hchk hmode0 rfl
        intro hf
        exact hnf ((mipCheckFails_congr caps _ img₀ ci cc cw chh).mp hf)
      · intro hcreT
        have hflip : mipmapModeOn img₀.filter :=
          check_created_flip caps (resetMipmaps (loadPrep caps t img₀))
            (by rw [← hcre]; exact hcreT) rfl
        have hnf : ¬ mipCheckFails caps (resetMipmaps (loadPrep caps t img₀)) :=
          not_fails_of_check_ok caps (resetMipmaps (loadPrep caps t img₀))
            hchk hflip rfl
        intro hf
        exact hnf ((mipCheckFails_congr caps _ img₀ ci cc cw chh).mp hf)
      · intro hsup
        rw [hsharp, if_pos hsup]
        exact clampQ_idem _ _ _
      · intro hsup
        rw [hsharp, if_neg (by simp [hsup])]
      · rw [cf]
        exact clampAnisotropy_idem caps img₀.filter.anisotropy
    · rw [if_neg hnp] at h ⊢
      obtain ⟨hup, hpot, hchk, hcre, hsharp⟩ :=
        loadVolatilePOT_success_info caps t _ img₀ h
      obtain ⟨ci, cc, cd, cw, chh, ct, cwr, cf⟩ := loadVolatilePOT_core caps t
        (if hasMipmapSharpnessSupport caps = true ∧ g₀ = 0 then
          caps.maxTextureLodBias else g₀) img₀
      refine ⟨hup, ?_, ?_, ?_, ?_, lazyInit_stable caps g₀, ?_, ?_, ?_⟩
      · intro hc hd
        rw [ci] at hc
        rw [cc] at hd ⊢
        cases hsupb : hasCompressedTextureSupportType caps (cdataType img₀.cdata) with
        | false => exact (hfmt ⟨hc, hd, hsupb⟩).elim
        | true => rfl
      · intro hnp2 hc hd
        rw [ci] at hc
        rw [cc] at hd
        have hnor : ¬(((img₀.width : ℚ) / (next_p2 img₀.width : ℚ) ≠ 1) ∨
            ((img₀.height : ℚ) / (next_p2 img₀.height : ℚ) ≠ 1)) :=
          fun hor => hpot ⟨hc, hd, hor⟩
        push_neg at hnor
        constructor
        · rw [cw]; exact hnor.1
        · rw [chh]; exact hnor.2
      · intro hmode
        have hmode0 : mipmapModeOn img₀.filter := by
          rcases hmode with hm | hm
          · rw [cf] at hm; exact Or.inl hm
          · rw [cf] at hm; exact Or.inr hm
        have hnf : ¬ mipCheckFails caps (resetMipmaps (potScale caps t img₀)) :=
          not_fails_of_check_ok caps (resetMipmaps (potScale caps t img₀))
            hchk hmode0 rfl
        intro hf
        exact hnf ((mipCheckFails_congr caps _ img₀ ci cc cw chh).mp hf)
      · intro hcreT
        have hflip : mipmapModeOn img₀.filter :=
          check_created_flip caps (resetMipmaps (potScale caps t img₀))
            (by rw [← hcre]; exact hcreT) rfl
        have hnf : ¬ mipCheckFails caps (resetMipmaps (potScale caps t img₀)) :=
          not_fails_of_check_ok caps (resetMipmaps (potScale caps t img₀))
            hchk hflip rfl
        intro hf
        exact hnf ((mipCheckFails_congr caps _ img₀ ci cc cw chh).mp hf)
      · intro hsup
        rw [hsharp, if_pos hsup]
        exact clampQ_idem _ _ _
      · intro hsup
        rw [hsharp, if_neg (by simp [hsup])]
      · rw [cf]
        exact clampAnisotropy_idem caps img₀.filter.anisotropy

/-- Here `setWrap` preserves the loaded-state invariant. -/
theorem inv_setWrap (caps : Caps) (g : ℚ) (img : Image) (w : Wrap)
    (h : LoadedInv caps g img) : LoadedInv caps g (setWrap w img) :=
  h

/-- Here `setMipmapSharpness` (with the current static) preserves the loaded-state
invariant. -/
theorem inv_setSharp (caps : Caps) (g : ℚ) (img : Image) (s : ℚ)
    (h : LoadedInv caps g img) :
    LoadedInv caps g (setMipmapSharpness caps g s img) := by
  obtain ⟨h1, h2, h3, h4, h5, h6, h7, h8, h9⟩ := h
  refine ⟨h1, ?_, ?_, ?_, ?_, h6, ?_, ?_, ?_⟩
  · intro hc hd
    rw [sms_isCompressed] at hc
    rw [sms_cdata] at hd ⊢
    exact h2 hc hd
  · intro ha hc hd
    rw [sms_isCompressed] at hc
    rw [sms_cdata] at hd
    rw [sms_width, sms_height]
    exact h3 ha hc hd
  · intro hmode hf
    rw [sms_filter] at hmode
    exact h4 hmode ((mipCheckFails_congr caps _ img (sms_isCompressed _ _ _ _)
      (sms_cdata _ _ _ _) (sms_width _ _ _ _) (sms_height _ _ _ _)).mp hf)
  · intro hcre hf
    rw [sms_mipmapsCreated] at hcre
    exact h5 hcre ((mipCheckFails_congr caps _ img (sms_isCompressed _ _ _ _)
      (sms_cdata _ _ _ _) (sms_width _ _ _ _) (sms_height _ _ _ _)).mp hf)
  · intro hsup
    rw [sms_value, if_pos hsup]
    exact clampQ_idem _ _ _
  · intro hsup
    rw [sms_value, if_neg (by simp [hsup])]
  · rw [sms_filter]
    exact h9

/-- A successful `setFilter` preserves the loaded-state invariant. -/
theorem inv_setFilter (caps : Caps) (g : ℚ) (img : Image) (f : Filter)
    (hQ : LoadedInv caps g img)
    (hs : (setFilter caps f img).2 = none) :
    LoadedInv caps g (setFilter caps f img).1 := by
  obtain ⟨h1, h2, h3, h4, h5, h6, h7, h8, h9⟩ := hQ
  have hs' : (checkMipmapsCreated caps
      { img with filter :=
          { f with anisotropy := clampAnisotropy caps f.anisotropy } }).err = none := hs
  have e_ic : (setFilter caps f img).1.isCompressed = img.isCompressed :=
    check_img_isCompressed caps
      { img with filter := { f with anisotropy := clampAnisotropy caps f.anisotropy } }
  have e_cd : (setFilter caps f img).1.cdata = img.cdata :=
    check_img_cdata caps
      { img with filter := { f with anisotropy := clampAnisotropy caps f.anisotropy } }
  have e_w : (setFilter caps f img).1.width = img.width :=
    check_img_width caps
      { img with filter := { f with anisotropy := clampAnisotropy caps f.anisotropy } }
  have e_h : (setFilter caps f img).1.height = img.height :=
    check_img_height caps
      { img with filter := { f with anisotropy := clampAnisotropy caps f.anisotropy } }
  have e_sh : (setFilter caps f img).1.mipmapSharpness = img.mipmapSharpness :=
    check_img_mipmapSharpness caps
      { img with filter := { f with anisotropy := clampAnisotropy caps f.anisotropy } }
  have e_f : (setFilter caps f img).1.filter =
      { f with anisotropy := clampAnisotropy caps f.anisotropy } :=
    check_img_filter caps
      { img with filter := { f with anisotropy := clampAnisotropy caps f.anisotropy } }
  refine ⟨h1, ?_, ?_, ?_, ?_, h6, ?_, ?_, ?_⟩
  · intro hc hd
    rw [e_ic] at hc
    rw [e_cd] at hd ⊢
    exact h2 hc hd
  · intro ha hc hd
    rw [e_ic] at hc
    rw [e_cd] at hd
    rw [e_w, e_h]
    exact h3 ha hc hd
  · intro hmode hf
    have hf0 : mipCheckFails caps img :=
      (mipCheckFails_congr caps _ img e_ic e_cd e_w e_h).mp hf
    cases hcr : img.mipmapsCreated with
    | true => exact h5 hcr hf0
    | false =>
      have hmode1 : mipmapModeOn ({ img with filter :=
          { f with anisotropy := clampAnisotropy caps f.anisotropy } } : Image).filter := by
        rw [e_f] at hmode
        exact hmode
      exact not_fails_of_check_ok caps
        { img with filter := { f with anisotropy := clampAnisotropy caps f.anisotropy } }
        hs' hmode1 hcr hf0
  · intro hcreT hf
    have hf0 : mipCheckFails caps img :=
      (mipCheckFails_congr caps _ img e_ic e_cd e_w e_h).mp hf
    cases hcr : img.mipmapsCreated with
    | true => exact h5 hcr hf0
    | false =>
      have hflip : mipmapModeOn ({ img with filter :=
          { f with anisotropy := clampAnisotropy caps f.anisotropy } } : Image).filter :=
        check_created_flip caps
          { img with filter := { f with anisotropy := clampAnisotropy caps f.anisotropy } }
          hcreT hcr
      exact not_fails_of_check_ok caps
        { img with filter := { f with anisotropy := clampAnisotropy caps f.anisotropy } }
        hs' hflip hcr hf0
  · intro hsup
    rw [e_sh]
    exact h7 hsup
  · intro hsup
    rw [e_sh]
    exact h8 hsup
  · rw [e_f]
    exact clampAnisotropy_idem caps f.anisotropy

/-- The states of the claim's "Loaded" phase: a successful load followed by
any sequence of successful mutator calls (`setFilter`, `setWrap`,
`setMipmapSharpness`).  The rational index is the process-wide
`maxMipmapSharpness` static at that point. -/
inductive Reachable (caps : Caps) : ℚ → Image → Prop
  | load (g₀ : ℚ) (img₀ : Image) (t : ℕ) :
      (loadVolatile caps t g₀ img₀).err = none →
      Reachable caps (loadVolatile caps t g₀ img₀).gmax
        (loadVolatile caps t g₀ img₀).img
  | filterStep (g : ℚ) (img : Image) (f : Filter) :
      Reachable caps g img →
      (setFilter caps f img).2 = none →
      Reachable caps g (setFilter caps f img).1
  | wrapStep (g : ℚ) (img : Image) (w : Wrap) :
      Reachable caps g img →
      Reachable caps g (setWrap w img)
  | sharpStep (g : ℚ) (img : Image) (s : ℚ) :
      Reachable caps g img →
      Reachable caps g (setMipmapSharpness caps g s img)

/-- Every reachable loaded state satisfies the invariant. -/
theorem inv_of_reachable (caps : Caps) (g : ℚ) (img : Image)
    (h : Reachable caps g img) : LoadedInv caps g img := by
  induction h with
  | load g₀ img₀ t hok => exact inv_of_load caps t g₀ img₀ hok
  | filterStep g img f _ hsf ih => exact inv_setFilter caps g img f ih hsf
  | wrapStep g img w _ ih => exact inv_setWrap caps g img w ih
  | sharpStep g img s _ ih => exact inv_setSharp caps g img s ih

/-- The reload consequence of the invariant: unloading and loading again
succeeds and reproduces the visible state. -/
theorem reload_of_inv (caps : Caps) (g : ℚ) (img : Image) (t : ℕ)
    (hQ : LoadedInv caps g img) :
    (loadVolatile caps t g (unloadVolatile img)).err = none ∧
    (loadVolatile caps t g (unloadVolatile img)).gmax = g ∧
    (loadVolatile caps t g (unloadVolatile img)).img.width = img.width ∧
    (loadVolatile caps t g (unloadVolatile img)).img.height = img.height ∧
    (loadVolatile caps t g (unloadVolatile img)).img.filter = img.filter ∧
    (loadVolatile caps t g (unloadVolatile img)).img.wrap = img.wrap ∧
    (loadVolatile caps t g (unloadVolatile img)).img.mipmapSharpness =
      img.mipmapSharpness := by
  obtain ⟨h1, h2, h3, h4, h5, h6, h7, h8, h9⟩ := hQ
  have hfmt : ¬((unloadVolatile img).isCompressed = true ∧
      (unloadVolatile img).cdata.isSome = true ∧
      hasCompressedTextureSupportType caps
        (cdataType (unloadVolatile img).cdata) = false) := by
    rintro ⟨ha, hb, hc⟩
    rw [unload_isCompressed] at ha
    rw [unload_cdata] at hb hc
    rw [h2 ha hb] at hc
    simp at hc
  have hoku : mipmapModeOn (unloadVolatile img).filter →
      ¬ mipCheckFails caps (unloadVolatile img) := by
    intro hm hf
    rw [unload_filter] at hm
    exact h4 hm ((mipCheckFails_congr caps _ img (unload_isCompressed img)
      (unload_cdata img) (unload_width img) (unload_height img)).mp hf)
  unfold loadVolatile
  rw [if_neg hfmt]
  dsimp only
  rw [h6]
  by_cases hnp : hasNpot caps = true
  · rw [if_pos hnp]
    have herr : (loadVolatileNPOT caps t g (unloadVolatile img)).2 = none :=
      loadVolatileNPOT_err_none caps t g (unloadVolatile img) h1 hoku
    obtain ⟨ci, cc, cd, cw, chh, ct, cwr, cf⟩ :=
      loadVolatileNPOT_core caps t g (unloadVolatile img)
    obtain ⟨-, -, -, hsharp⟩ :=
      loadVolatileNPOT_success_info caps t g (unloadVolatile img) herr
    refine ⟨herr, rfl, cw.trans (unload_width img), chh.trans (unload_height img),
      ?_, cwr.trans (unload_wrap img), ?_⟩
    · rw [cf, unload_filter, h9]
    · rw [hsharp]
      by_cases hsup : hasMipmapSharpnessSupport caps = true
      · rw [if_pos hsup, unload_mipmapSharpness]
        exact h7 hsup
      · rw [if_neg hsup]
        exact (h8 (by simpa using hsup)).symm
  · rw [if_neg hnp]
    have hnpf : hasNpot caps = false := by simpa using hnp
    have hpot : ¬((potScale caps t (unloadVolatile img)).isCompressed = true ∧
        (potScale caps t (unloadVolatile img)).cdata.isSome = true ∧
        (((unloadVolatile img).width : ℚ) /
          (next_p2 (unloadVolatile img).width : ℚ) ≠ 1 ∨
         ((unloadVolatile img).height : ℚ) /
          (next_p2 (unloadVolatile img).height : ℚ) ≠ 1)) := by
      rintro ⟨ha, hb, hor⟩
      rw [potScale_isCompressed, unload_isCompressed] at ha
      rw [potScale_cdata, unload_cdata] at hb
      obtain ⟨hw1, ht1⟩ := h3 hnpf ha hb
      rw [unload_width] at hor
      rw [unload_height] at hor
      rcases hor with h' | h'
      · exact h' hw1
      · exact h' ht1
    have herr : (loadVolatilePOT caps t g (unloadVolatile img)).2 = none :=
      loadVolatilePOT_err_none caps t g (unloadVolatile img) h1 hpot hoku
    obtain ⟨ci, cc, cd, cw, chh, ct, cwr, cf⟩ :=
      loadVolatilePOT_core caps t g (unloadVolatile img)
    obtain ⟨-, -, -, -, hsharp⟩ :=
      loadVolatilePOT_success_info caps t g (unloadVolatile img) herr
    refine ⟨herr, rfl, cw.trans (unload_width img), chh.trans (unload_height img),
      ?_, cwr.trans (unload_wrap img), ?_⟩
    · rw [cf, unload_filter, h9]
    · rw [hsharp]
      by_cases hsup : hasMipmapSharpnessSupport caps = true
      · rw [if_pos hsup, unload_mipmapSharpness]
        exact h7 hsup
      · rw [if_neg hsup]
        exact (h8 (by simpa using hsup)).symm

/-- Claim C8 (confirmed): for every Image in the Loaded state (any state
reached by a successful load followed by successful `setFilter`, `setWrap`
or `setMipmapSharpness` calls), `unload()` followed by `load()` succeeds and
reproduces the prior visible state: width, height, filter, wrap and mipmap
sharpness are unchanged by the round trip (and the `maxMipmapSharpness`
static keeps its value). -/
theorem c8_unload_load_roundtrip (caps : Caps) (g : ℚ) (img : Image)
    (hr : Reachable caps g img) (t : ℕ) :
    (loadVolatile caps t g (unloadVolatile img)).err = none ∧
    (loadVolatile caps t g (unloadVolatile img)).gmax = g ∧
    (loadVolatile caps t g (unloadVolatile img)).img.width = img.width ∧
    (loadVolatile caps t g (unloadVolatile img)).img.height = img.height ∧
    (loadVolatile caps t g (unloadVolatile img)).img.filter = img.filter ∧
    (loadVolatile caps t g (unloadVolatile img)).img.wrap = img.wrap ∧
    (loadVolatile caps t g (unloadVolatile img)).img.mipmapSharpness =
      img.mipmapSharpness :=
  reload_of_inv caps g img t (inv_of_reachable caps g img hr)

/-- Witness for C8: the 100x50 raw image loaded on the POT-only fixture
system, unloaded and reloaded with a fresh handle. -/
theorem c8_witness :
    Reachable capsPOT (loadVolatile capsPOT 1 0 img100).gmax
      (loadVolatile capsPOT 1 0 img100).img ∧
    ((loadVolatile capsPOT 2 (loadVolatile capsPOT 1 0 img100).gmax
        (unloadVolatile (loadVolatile capsPOT 1 0 img100).img)).err = none ∧
     (loadVolatile capsPOT 2 (loadVolatile capsPOT 1 0 img100).gmax
        (unloadVolatile (loadVolatile capsPOT 1 0 img100).img)).gmax =
       (loadVolatile capsPOT 1 0 img100).gmax ∧
     (loadVolatile capsPOT 2 (loadVolatile capsPOT 1 0 img100).gmax
        (unloadVolatile (loadVolatile capsPOT 1 0 img100).img)).img.width =
       (loadVolatile capsPOT 1 0 img100).img.width ∧
     (loadVolatile capsPOT 2 (loadVolatile capsPOT 1 0 img100).gmax
        (unloadVolatile (loadVolatile capsPOT 1 0 img100).img)).img.height =
       (loadVolatile capsPOT 1 0 img100).img.height ∧
     (loadVolatile capsPOT 2 (loadVolatile capsPOT 1 0 img100).gmax
        (unloadVolatile (loadVolatile capsPOT 1 0 img100).img)).img.filter =
       (loadVolatile capsPOT 1 0 img100).img.filter ∧
     (loadVolatile capsPOT 2 (loadVolatile capsPOT 1 0 img100).gmax
        (unloadVolatile (loadVolatile capsPOT 1 0 img100).img)).img.wrap =
       (loadVolatile capsPOT 1 0 img100).img.wrap ∧
     (loadVolatile capsPOT 2 (loadVolatile capsPOT 1 0 img100).gmax
        (unloadVolatile (loadVolatile capsPOT 1 0 img100).img)).img.mipmapSharpness =
       (loadVolatile capsPOT 1 0 img100).img.mipmapSharpness) :=
  ⟨Reachable.load 0 img100 1 (by decide),
    c8_unload_load_roundtrip capsPOT (loadVolatile capsPOT 1 0 img100).gmax
      (loadVolatile capsPOT 1 0 img100).img
      (Reachable.load 0 img100 1 (by decide)) 2⟩

end love
